import Mathlib

/-!
MovieApp.jsx: the query orchestration of the movie search component.

A shallow embedding of `src/components/MovieApp.jsx`.

* `State` is the component's React state (the nine `useState` cells).
* `fetchMovies` is split at its single `await`: `fetchStart` is the synchronous
  part up to the request, `fetchSettle` the continuation run when the request
  resolves or rejects.  State updaters such as `setMovies (prev => ...)` are
  applied to the state current at that moment.
* `World` adds what lives outside the React state: the module-level
  `debounceTimer`, the browser's table of pending timeouts, the requests in
  flight, a clock, and the cleanup function React remembers for the second
  effect.  Every user event is a function `World → World` that runs the handler
  and then the effects whose dependency arrays changed.
-/

namespace MovieApp

/-! ## Data model -/

/-- One entry of `response.data.Search`. -/
structure Movie where
  Title : String
  Year : String
  imdbID : String
  Type_ : String
  Poster : String
deriving DecidableEq, Repr

/-- The React state of `MovieRecommendations` (lines 9-17). -/
structure State where
  movies : List Movie
  searchQuery : String
  typeFilter : String
  yearFilter : String
  pageNumber : Nat
  totalPages : Nat
  loading : Bool
  error : String
  isSearchMode : Bool
deriving DecidableEq, Repr

/-- The initial values given to `useState` (lines 9-17). -/
def State.initial : State :=
  { movies := [], searchQuery := "", typeFilter := "", yearFilter := "",
    pageNumber := 1, totalPages := 1, loading := false, error := "",
    isSearchMode := false }

/-- The `params` object of lines 31-39; an absent key is `none`. -/
structure Params where
  apikey : String
  s : String
  page : Nat
  type : Option String
  y : Option String
deriving DecidableEq, Repr

/-- The body `response.data` of a resolved request.  `totalResults` is the
number the numeric string denotes; `Error` is `none` when the key is absent. -/
structure ResponseData where
  Response : String
  Search : List Movie
  totalResults : Nat
  Error : Option String
deriving DecidableEq, Repr

/-- How `await axios.get (...)` ends: it resolves with a body or it throws. -/
inductive Outcome where
  | resolved (data : ResponseData)
  | rejected
deriving DecidableEq, Repr

/-- A call of `fetchMovies` that reached the request: the parameters sent and
the `page` and `append` arguments its continuation still refers to. -/
structure Request where
  params : Params
  page : Nat
  append : Bool
deriving DecidableEq, Repr

/-! ## The keyword picker (lines 19-24) -/

/-- The vocabulary `randomKeywords` (line 19). -/
def randomKeywords : List String :=
  ["love", "hero", "life", "dark", "day", "moon", "star", "war", "girl", "boy"]

/-- The word `getRandomKeyword` returns when `Math.floor (Math.random () * 10)`
is `i` (lines 21-24). -/
def getRandomKeyword (i : Fin 10) : String :=
  randomKeywords.getD i.val ""

/-! ## fetchMovies (lines 26-65) -/

/-- Reads `n` characters matching `\d` off the front of the input. -/
def consumeDigits : Nat → List Char → Option (List Char)
  | 0, cs => some cs
  | _ + 1, [] => none
  | n + 1, c :: cs => if c.isDigit then consumeDigits n cs else none

/-- The test `/^\d{4}$/.test (yearFilter)` of line 37: four digits from the start
of the input, and then the end of the input. -/
def yearRegexTest (yearFilter : String) : Bool :=
  consumeDigits 4 yearFilter.toList == some []

/-- The `params` object built at lines 31-39.  A JavaScript string is truthy
when it is not empty. -/
def buildParams (typeFilter yearFilter query : String) (page : Nat) : Params :=
  { apikey := "1131a0e3"
    s := query
    page := page
    type := if typeFilter ≠ "" then some typeFilter else none
    y := if yearFilter ≠ "" ∧ yearRegexTest yearFilter = true then some yearFilter else none }

/-- The value `Math.ceil (totalResults / 10)` of line 51: real division, then the
ceiling. -/
def mathCeilDiv10 (totalResults : Nat) : Nat :=
  Nat.ceil ((totalResults : ℚ) / 10)

/-- The value `response.data.Error || 'No results found'` of line 55: the right
operand replaces an absent or an empty left operand. -/
def errorOrDefault (err : Option String) : String :=
  match err with
  | some t => if t ≠ "" then t else "No results found"
  | none => "No results found"

/-- Lines 27-41 of `fetchMovies`: nothing happens for an empty query; otherwise
`loading` is set, `error` is cleared and the request is sent.  `typeFilter` and
`yearFilter` are the values the closure `fetchMovies` captured at its render. -/
def fetchStart (typeFilter yearFilter : String) (s : State) (query : String) (page : Nat)
    (append : Bool) : Option (State × Request) :=
  if query = "" then none
  else
    some ({ s with loading := true, error := "" },
          { params := buildParams typeFilter yearFilter query page,
            page := page, append := append })

/-- Lines 43-64 of `fetchMovies`: the continuation after the `await`, applied to
the state `s` current when the request settles. -/
def fetchSettle (s : State) (r : Request) (o : Outcome) : State :=
  match o with
  | .resolved d =>
    if d.Response = "True" then
      { s with
        movies := if r.append = true ∧ r.page > 1 then s.movies ++ d.Search else d.Search
        totalPages := mathCeilDiv10 d.totalResults
        error := ""
        loading := false }
    else if r.append = false ∨ r.page = 1 then
      { s with
        error := errorOrDefault d.Error
        movies := []
        totalPages := 1
        loading := false }
    else
      { s with loading := false }
  | .rejected =>
    { s with
      error := "Failed to fetch movies"
      movies := if r.append = false then [] else s.movies
      loading := false }

/-- A whole call `fetchMovies (query, page, append)` during which nothing else
touches the state: the request is sent and settles with `o`. -/
def fetchMovies (s : State) (query : String) (page : Nat) (append : Bool) (o : Outcome) :
    State :=
  match fetchStart s.typeFilter s.yearFilter s query page append with
  | none => s
  | some (s1, r) => fetchSettle s1 r o

/-! ## handleScroll (lines 67-76) -/

/-- The callback `handleScroll`: `innerHeight`, `scrollTop` and `scrollHeight` are
the three measures read from the window and the document. -/
def handleScroll (s : State) (innerHeight scrollTop scrollHeight : Int) : State :=
  if innerHeight + scrollTop + 100 ≥ scrollHeight ∧ s.loading = false ∧
      s.pageNumber < s.totalPages then
    { s with pageNumber := s.pageNumber + 1 }
  else s

/-! ## The world around the component -/

/-- The code points `String.prototype.trim` removes: the white space and line
terminator characters of ECMAScript. -/
def isJsWhitespace (c : Char) : Bool :=
  let n := c.toNat
  n == 0x09 || n == 0x0A || n == 0x0B || n == 0x0C || n == 0x0D || n == 0x20 ||
  n == 0xA0 || n == 0x1680 || (0x2000 ≤ n && n ≤ 0x200A) || n == 0x2028 ||
  n == 0x2029 || n == 0x202F || n == 0x205F || n == 0x3000 || n == 0xFEFF

/-- The test `!searchQuery.trim ()` of lines 84 and 89: nothing is left of the
string once the white space is trimmed. -/
def isBlank (q : String) : Bool :=
  q.toList.all isJsWhitespace

/-- The call site of `fetchMovies` a request comes from; kept for the statements
only, the program does not look at it. -/
inductive Origin where
  | pageEffect
  | queryEffect
  | debounce
  | clearSearch
deriving DecidableEq, Repr

/-- A pending timeout created at lines 100-102: its callback is
`fetchMovies (searchQuery, 1, false)` with the query and the filters of the
render that created it. -/
structure Timeout where
  id : Nat
  deadline : Nat
  query : String
  typeFilter : String
  yearFilter : String
deriving DecidableEq, Repr

/-- The component together with its surroundings. -/
structure World where
  /-- The React state. -/
  state : State
  /-- The module-level variable of line 6; `none` is `undefined`. -/
  debounceTimer : Option Nat
  /-- The browser's pending timeouts, oldest first. -/
  timeouts : List Timeout
  /-- The id the next `setTimeout` returns. -/
  nextTimeoutId : Nat
  /-- Whether the last run of the query effect returned the cleanup of line 104. -/
  cleanup : Bool
  /-- The requests sent and not yet settled, oldest first. -/
  inFlight : List Request
  /-- Every request sent so far, oldest first. -/
  sent : List (Origin × Request)
  /-- The clock, in milliseconds. -/
  now : Nat
  /-- How many times `Math.random` was called. -/
  draws : Nat
  /-- Whether a response with `Response === 'True'` was applied. -/
  positiveSeen : Bool
deriving DecidableEq, Repr

/-- The world before the component is mounted. -/
def World.initial : World :=
  { state := State.initial, debounceTimer := none, timeouts := [], nextTimeoutId := 1,
    cleanup := false, inFlight := [], sent := [], now := 0, draws := 0,
    positiveSeen := false }

/-- A call of `fetchMovies` up to its `await`. -/
def World.send (w : World) (o : Origin) (typeFilter yearFilter query : String) (page : Nat)
    (append : Bool) : World :=
  match fetchStart typeFilter yearFilter w.state query page append with
  | none => w
  | some (s, r) => { w with state := s, inFlight := w.inFlight ++ [r], sent := w.sent ++ [(o, r)] }

/-- The call `clearTimeout (id)`; it does nothing for `undefined` and for a timeout
that is no longer pending. -/
def World.clearTimeout (w : World) (id : Option Nat) : World :=
  match id with
  | none => w
  | some i => { w with timeouts := w.timeouts.filter (fun t => t.id ≠ i) }

/-- The effect of lines 83-86, run on the state of the render. `rnd` is the
sequence of indices the calls of `getRandomKeyword` draw. -/
def pageEffect (rnd : Nat → Fin 10) (w : World) : World :=
  let s := w.state
  if s.isSearchMode = true ∧ isBlank s.searchQuery = false then
    w.send .pageEffect s.typeFilter s.yearFilter s.searchQuery s.pageNumber
      (decide (s.pageNumber > 1))
  else
    { w with draws := w.draws + 1 }.send .pageEffect s.typeFilter s.yearFilter
      (getRandomKeyword (rnd w.draws)) s.pageNumber (decide (s.pageNumber > 1))

/-- The effect of lines 88-105, run on the state of the render. -/
def queryEffect (rnd : Nat → Fin 10) (w : World) : World :=
  let s := w.state
  if isBlank s.searchQuery = true then
    let w1 := { w with state := { s with isSearchMode := false, pageNumber := 1 },
                       draws := w.draws + 1, cleanup := false }
    w1.send .queryEffect s.typeFilter s.yearFilter (getRandomKeyword (rnd w.draws)) 1 false
  else
    let w1 := { w with state := { s with isSearchMode := true, pageNumber := 1 } }
    let w2 := w1.clearTimeout w1.debounceTimer
    { w2 with
      timeouts := w2.timeouts ++
        [{ id := w2.nextTimeoutId, deadline := w2.now + 500, query := s.searchQuery,
           typeFilter := s.typeFilter, yearFilter := s.yearFilter }]
      debounceTimer := some w2.nextTimeoutId
      nextTimeoutId := w2.nextTimeoutId + 1
      cleanup := true }

/-- Whether the dependency array of the page effect (line 86) differs between
the states of two renders. -/
def pageDeps (old s : State) : Bool :=
  decide (old.pageNumber ≠ s.pageNumber ∨ old.typeFilter ≠ s.typeFilter ∨
    old.yearFilter ≠ s.yearFilter)

/-- Whether the dependency array of the query effect (line 105) differs between
the states of two renders. -/
def queryDeps (old s : State) : Bool :=
  decide (old.searchQuery ≠ s.searchQuery ∨ old.typeFilter ≠ s.typeFilter ∨
    old.yearFilter ≠ s.yearFilter)

/-- What React does first after a handler changed the state from `old` to
`w.state`: the cleanup of the query effect (line 104) runs when one was returned
and the dependencies of that effect changed. -/
def commitCleanup (old : State) (w : World) : World :=
  if queryDeps old w.state && w.cleanup then w.clearTimeout w.debounceTimer else w

/-- Then the page effect runs when its dependencies changed. -/
def commitPage (rnd : Nat → Fin 10) (old : State) (w : World) : World :=
  if pageDeps old w.state then pageEffect rnd (commitCleanup old w) else commitCleanup old w

/-- Then the query effect runs when its dependencies changed. -/
def commitQuery (rnd : Nat → Fin 10) (old : State) (w : World) : World :=
  if queryDeps old w.state then queryEffect rnd (commitPage rnd old w) else commitPage rnd old w

/-- What React does after a handler changed the state from `old` to `w.state`:
the cleanup, then the effects whose dependencies changed, in the order of the
source; the page effect runs once more, in the next render, when the query effect
changed `pageNumber`. -/
def commit (rnd : Nat → Fin 10) (old : State) (w : World) : World :=
  if (commitQuery rnd old w).state.pageNumber ≠ w.state.pageNumber then
    pageEffect rnd (commitQuery rnd old w)
  else commitQuery rnd old w

/-- The first render: both effects run, in the order of the source. -/
def mount (rnd : Nat → Fin 10) : World :=
  queryEffect rnd (pageEffect rnd World.initial)

/-- The callback of a timeout (line 101). -/
def World.fire (w : World) (t : Timeout) : World :=
  w.send .debounce t.typeFilter t.yearFilter t.query 1 false

/-- The clock advances by `ms`; the timeouts due by then run, oldest first. -/
def World.advance (w : World) (ms : Nat) : World :=
  let due := w.timeouts.filter (fun t => t.deadline ≤ w.now + ms)
  let w1 := { w with timeouts := w.timeouts.filter (fun t => ¬ t.deadline ≤ w.now + ms),
                     now := w.now + ms }
  due.foldl World.fire w1

/-- The body of `clearSearch` (lines 107-116); its `fetchMovies` is the closure of
the render the handler belongs to, with the filters of that render. -/
def clearSearch (rnd : Nat → Fin 10) (w : World) : World :=
  let old := w.state
  let w1 := { w with
    state := { old with searchQuery := "", typeFilter := "", yearFilter := "",
                        isSearchMode := false, pageNumber := 1, movies := [], error := "" }
    draws := w.draws + 1 }
  w1.send .clearSearch old.typeFilter old.yearFilter (getRandomKeyword (rnd w.draws)) 1 false

/-- What can happen to the mounted component. -/
inductive Event where
  /-- The `onChange` of the search input (line 147). -/
  | changeQuery (value : String)
  /-- The `onChange` of the type select (line 156). -/
  | changeType (value : String)
  /-- The `onChange` of the year input (line 168). -/
  | changeYear (value : String)
  /-- A scroll event with the three measures `handleScroll` reads. -/
  | scroll (innerHeight scrollTop scrollHeight : Int)
  /-- A click on the clear button (line 173). -/
  | clear
  /-- Time passes. -/
  | wait (ms : Nat)
  /-- The request at position `i` of `inFlight` settles. -/
  | settle (i : Nat) (o : Outcome)
deriving DecidableEq, Repr

/-- Whether an outcome is a response with `Response === 'True'`. -/
def Outcome.positive : Outcome → Bool
  | .resolved d => decide (d.Response = "True")
  | .rejected => false

/-- One event: the handler, then the effects. -/
def step (rnd : Nat → Fin 10) (w : World) : Event → World
  | .changeQuery v => commit rnd w.state { w with state := { w.state with searchQuery := v } }
  | .changeType v => commit rnd w.state { w with state := { w.state with typeFilter := v } }
  | .changeYear v => commit rnd w.state { w with state := { w.state with yearFilter := v } }
  | .scroll h t H => commit rnd w.state { w with state := handleScroll w.state h t H }
  | .clear => commit rnd w.state (clearSearch rnd w)
  | .wait ms => w.advance ms
  | .settle i o =>
    match w.inFlight.get? i with
    | none => w
    | some r =>
      { w with state := fetchSettle w.state r o, inFlight := w.inFlight.eraseIdx i,
               positiveSeen := w.positiveSeen || o.positive }

/-- The events of a list, in order. -/
def run (rnd : Nat → Fin 10) (w : World) (es : List Event) : World :=
  es.foldl (step rnd) w

/-- The worlds the mounted component can be in. -/
inductive Reachable (rnd : Nat → Fin 10) : World → Prop where
  | mount : Reachable rnd (mount rnd)
  | step (w : World) (e : Event) : Reachable rnd w → Reachable rnd (step rnd w e)

/-! ## Vocabulary of the statements -/

/-- The query the page effect resolves at line 84. -/
def pageQuery (rnd : Nat → Fin 10) (w : World) : String :=
  if w.state.isSearchMode = true ∧ isBlank w.state.searchQuery = false then w.state.searchQuery
  else getRandomKeyword (rnd w.draws)

/-- The requests the timeout callback (line 101) has sent so far, oldest first. -/
def World.debounceSent (w : World) : List Request :=
  (w.sent.filter (fun x => decide (x.1 = Origin.debounce))).map Prod.snd

/-- A burst of typing: each pair is the time since the previous event and the
value the search input changes to. -/
def typing (rnd : Nat → Fin 10) (w : World) : List (Nat × String) → World
  | [] => w
  | (gap, v) :: rest => typing rnd (step rnd (step rnd w (.wait gap)) (.changeQuery v)) rest

/-- The event changes the type filter or the year filter to another value. -/
def Event.changesFilter (w : World) : Event → Prop
  | .changeType v => v ≠ w.state.typeFilter
  | .changeYear v => v ≠ w.state.yearFilter
  | _ => False

/-- The event is the settling of a request. -/
def Event.isSettle : Event → Prop
  | .settle _ _ => True
  | _ => False

/-- At most one timeout is pending, and it is the one `debounceTimer` names. -/
def TimerInv (w : World) : Prop :=
  w.timeouts = [] ∨ ∃ t, w.timeouts = [t] ∧ w.debounceTimer = some t.id

/-- The mode flag and the remembered cleanup agree with the search text: Search
mode, with a cleanup, exactly when the text is not blank. -/
def Coherent (w : World) : Prop :=
  w.state.isSearchMode = !isBlank w.state.searchQuery ∧
  w.cleanup = !isBlank w.state.searchQuery

/-- The timeout armed by the latest change is the only one pending: it is due in
500 ms and carries the current search text and filters. -/
def Armed (w : World) : Prop :=
  ∃ id, w.timeouts = [⟨id, w.now + 500, w.state.searchQuery, w.state.typeFilter,
      w.state.yearFilter⟩] ∧ w.debounceTimer = some id

/-- What holds of every world the component can be in. -/
def Inv (w : World) : Prop :=
  TimerInv w ∧ Coherent w ∧ 1 ≤ w.state.pageNumber

/-- The bound of the data model: `page ≤ totalPages` and `totalPages ≥ 1`. -/
def PageBound (s : State) : Prop :=
  s.pageNumber ≤ s.totalPages ∧ 1 ≤ s.totalPages

/-- A request for page 1 in replace mode whose search term is the search text of
`w` when that text is not blank, and a word of the vocabulary when it is. -/
def FirstPageFetch (w : World) (r : Request) : Prop :=
  r.page = 1 ∧ r.append = false ∧ r.params.page = 1 ∧
  (isBlank w.state.searchQuery = false → r.params.s = w.state.searchQuery) ∧
  (isBlank w.state.searchQuery = true → r.params.s ∈ randomKeywords)

/-- The sequence of draws in which `getRandomKeyword` always returns its first
word. -/
def firstWord : Nat → Fin 10 := fun _ => 0

/-- The world after the mount, a first response announcing 25 results and a scroll
to the bottom: the second page is being fetched. -/
def secondPageWorld : World :=
  run firstWord (mount firstWord)
    [.settle 0 (.resolved ⟨"True", [], 25, none⟩), .scroll 800 300 1000]

/-- The world `secondPageWorld` once the second request of the mount, still in
flight, is answered with 8 results. -/
def lateResponseWorld : World :=
  step firstWord secondPageWorld (.settle 0 (.resolved ⟨"True", [], 8, none⟩))

/-- The world after the mount, the typing of `batman` and the 500 ms of the
debounce: the timeout has run and none is pending. -/
def searchWorld : World :=
  run firstWord (mount firstWord) [.changeQuery "batman", .wait 500]

end MovieApp

namespace MovieApp

/-! ## Lemmas on fetchMovies -/

/-- The ceiling of the real quotient is the rounded-up integer quotient. -/
theorem mathCeilDiv10_eq (n : Nat) : mathCeilDiv10 n = (n + 9) / 10 := by
  unfold mathCeilDiv10
  apply le_antisymm
  · rw [Nat.ceil_le, div_le_iff₀ (by norm_num : (0 : ℚ) < 10)]
    have h : n ≤ (n + 9) / 10 * 10 := by omega
    exact_mod_cast h
  · have h : (n : ℚ) / 10 ≤ (Nat.ceil ((n : ℚ) / 10) : ℚ) := Nat.le_ceil _
    rw [div_le_iff₀ (by norm_num : (0 : ℚ) < 10)] at h
    have h2 : n ≤ Nat.ceil ((n : ℚ) / 10) * 10 := by exact_mod_cast h
    omega

/-- Reading four digits and reaching the end is having four characters, all of
them digits. -/
theorem yearRegexTest_iff (y : String) :
    yearRegexTest y = true ↔
      y.length = 4 ∧ ∀ c ∈ y.toList, 48 ≤ c.toNat ∧ c.toNat ≤ 57 := by
  have hd : ∀ c : Char, c.isDigit = true ↔ 48 ≤ c.toNat ∧ c.toNat ≤ 57 := by
    intro c
    simp [Char.isDigit, Char.toNat, UInt32.le_def, BitVec.le_def, UInt32.toNat]
  unfold yearRegexTest
  rw [String.length]
  rcases y with ⟨cs⟩
  simp only [String.toList]
  match cs with
  | [] => simp [consumeDigits]
  | [a] => simp [consumeDigits]
  | [a, b] => simp [consumeDigits]
  | [a, b, c] => simp [consumeDigits]
  | [a, b, c, d] =>
    simp only [consumeDigits, List.length_cons, List.length_nil, List.mem_cons,
      List.mem_singleton, forall_eq_or_imp, forall_eq, ← hd]
    by_cases ha : a.isDigit = true <;> by_cases hb : b.isDigit = true <;>
      by_cases hc : c.isDigit = true <;> by_cases hdd : d.isDigit = true <;>
      simp [ha, hb, hc, hdd]
  | a :: b :: c :: d :: e :: rest =>
    simp only [consumeDigits]
    by_cases ha : a.isDigit = true <;> by_cases hb : b.isDigit = true <;>
      by_cases hc : c.isDigit = true <;> by_cases hdd : d.isDigit = true <;>
      simp [ha, hb, hc, hdd]

/-- A sent request carries the `page` and `append` arguments of the call. -/
theorem fetchStart_of_ne (tf yf : String) (s : State) (query : String) (page : Nat)
    (append : Bool) (hq : query ≠ "") :
    fetchStart tf yf s query page append =
      some ({ s with loading := true, error := "" },
            { params := buildParams tf yf query page, page := page, append := append }) := by
  simp [fetchStart, hq]

/-! ## The claims on fetchMovies and handleScroll -/

/-- C1: when a response with `Response === 'True'` carrying the list `items` is
applied to the previous results `prev`, the results become `prev` followed by
`items` if `append` is true and `page > 1`, and `items` alone otherwise; ten
accumulated items and a ten-item page 2 give twenty items, the first ten being the
accumulated ones.  The same holds of a whole call of `fetchMovies` with a
non-empty query. -/
theorem C1_positive_response_appends_or_replaces (prev : State) (r : Request)
    (d : ResponseData) (hd : d.Response = "True") :
    (r.append = true → 1 < r.page →
      (fetchSettle prev r (.resolved d)).movies = prev.movies ++ d.Search) ∧
    (r.append = false ∨ r.page ≤ 1 →
      (fetchSettle prev r (.resolved d)).movies = d.Search) ∧
    (r.append = true → r.page = 2 → prev.movies.length = 10 → d.Search.length = 10 →
      (fetchSettle prev r (.resolved d)).movies.length = 20 ∧
      (fetchSettle prev r (.resolved d)).movies.take 10 = prev.movies) ∧
    (∀ (query : String) (page : Nat) (append : Bool), query ≠ "" →
      (fetchMovies prev query page append (.resolved d)).movies =
        if append = true ∧ 1 < page then prev.movies ++ d.Search else d.Search) := by
  refine ⟨?_, ?_, ?_, ?_⟩
  · intro ha hp
    simp [fetchSettle, hd, ha, hp]
  · intro h
    have hn : ¬ (r.append = true ∧ r.page > 1) := by
      rintro ⟨ha, hp⟩
      rcases h with h | h
      · rw [ha] at h; exact Bool.noConfusion h
      · omega
    simp only [fetchSettle, hd, if_true, if_neg hn]
  · intro ha hp hl hs
    have hc : r.append = true ∧ r.page > 1 := ⟨ha, by omega⟩
    simp only [fetchSettle, hd, if_true, if_pos hc]
    refine ⟨by simp [hl, hs], ?_⟩
    rw [← hl, List.take_left]
  · intro query page append hq
    simp [fetchMovies, fetchStart_of_ne _ _ _ _ _ _ hq, fetchSettle, hd]

/-- The theorem of C1 at a concrete input: one accumulated item, a page 2 in
append mode. -/
theorem C1_positive_response_witness :
    (fetchSettle { State.initial with movies := [⟨"Batman", "1989", "tt0096895", "movie", "N/A"⟩] }
        { params := buildParams "" "" "batman" 2, page := 2, append := true }
        (.resolved ⟨"True", [⟨"Batman Begins", "2005", "tt0372784", "movie", "N/A"⟩], 12, none⟩)).movies
      = [⟨"Batman", "1989", "tt0096895", "movie", "N/A"⟩] ++
        [⟨"Batman Begins", "2005", "tt0372784", "movie", "N/A"⟩] :=
  (C1_positive_response_appends_or_replaces _ _
    ⟨"True", [⟨"Batman Begins", "2005", "tt0372784", "movie", "N/A"⟩], 12, none⟩ rfl).1 rfl
    (by decide)

/-- C2: a response with `Response === 'True'` and total result count `n` sets
`totalPages` to the ceiling of `n / 10`, the least `k` with `10 * k ≥ n`; 25
results give 3 pages and 42 results give 5. -/
theorem C2_totalPages_is_ceiling (s : State) (r : Request) (d : ResponseData)
    (hd : d.Response = "True") :
    (fetchSettle s r (.resolved d)).totalPages = Nat.ceil ((d.totalResults : ℚ) / 10) ∧
    10 * (fetchSettle s r (.resolved d)).totalPages ≥ d.totalResults ∧
    (∀ k : Nat, 10 * k ≥ d.totalResults → (fetchSettle s r (.resolved d)).totalPages ≤ k) ∧
    (d.totalResults = 25 → (fetchSettle s r (.resolved d)).totalPages = 3) ∧
    (d.totalResults = 42 → (fetchSettle s r (.resolved d)).totalPages = 5) := by
  have ht : (fetchSettle s r (.resolved d)).totalPages = mathCeilDiv10 d.totalResults := by
    simp [fetchSettle, hd]
  refine ⟨by rw [ht]; rfl, ?_, ?_, ?_, ?_⟩
  · rw [ht, mathCeilDiv10_eq]; omega
  · intro k hk
    rw [ht, mathCeilDiv10_eq]; omega
  · intro h
    rw [ht, mathCeilDiv10_eq, h]
  · intro h
    rw [ht, mathCeilDiv10_eq, h]

/-- The theorem of C2 at a concrete input: 25 results. -/
theorem C2_totalPages_witness :
    (fetchSettle State.initial { params := buildParams "" "" "batman" 1, page := 1, append := false }
        (.resolved ⟨"True", [], 25, none⟩)).totalPages = 3 :=
  (C2_totalPages_is_ceiling State.initial _ ⟨"True", [], 25, none⟩ rfl).2.2.2.1 rfl

/-- C3: a response whose `Response` is not `'True'`.  When the call is not an
append continuation (`append` false or `page` 1) the results become empty,
`totalPages` becomes 1 and `error` becomes the `Error` text of the response, or
`'No results found'` when that text is absent or empty.  When it is an append
continuation (`append` true and `page > 1`) the results, `totalPages` and `error`
are what they were before the response. -/
theorem C3_negative_response (s : State) (r : Request) (d : ResponseData)
    (hd : d.Response ≠ "True") :
    (r.append = false ∨ r.page = 1 →
      (fetchSettle s r (.resolved d)).movies = [] ∧
      (fetchSettle s r (.resolved d)).totalPages = 1 ∧
      (∀ t, d.Error = some t → t ≠ "" → (fetchSettle s r (.resolved d)).error = t) ∧
      (d.Error = none ∨ d.Error = some "" →
        (fetchSettle s r (.resolved d)).error = "No results found")) ∧
    (1 ≤ r.page → ¬ (r.append = true ∧ 1 < r.page) → r.append = false ∨ r.page = 1) ∧
    (r.append = true ∧ 1 < r.page →
      (fetchSettle s r (.resolved d)).movies = s.movies ∧
      (fetchSettle s r (.resolved d)).totalPages = s.totalPages ∧
      (fetchSettle s r (.resolved d)).error = s.error) ∧
    (∀ (query : String) (page : Nat), query ≠ "" → 1 < page →
      (fetchMovies s query page true (.resolved d)).movies = s.movies ∧
      (fetchMovies s query page true (.resolved d)).totalPages = s.totalPages ∧
      (fetchMovies s query page true (.resolved d)).error = "") := by
  refine ⟨?_, ?_, ?_, ?_⟩
  · intro h
    have he : (fetchSettle s r (.resolved d)).error = errorOrDefault d.Error := by
      simp only [fetchSettle, if_neg hd, if_pos h]
    refine ⟨by simp only [fetchSettle, if_neg hd, if_pos h],
      by simp only [fetchSettle, if_neg hd, if_pos h], ?_, ?_⟩
    · intro t ht hne
      rw [he, ht]
      simp [errorOrDefault, hne]
    · rintro (h0 | h0) <;> rw [he, h0] <;> simp [errorOrDefault]
  · intro h1 hn
    by_cases ha : r.append = true
    · right
      have : ¬ 1 < r.page := fun hp => hn ⟨ha, hp⟩
      omega
    · left
      simpa using ha
  · rintro ⟨ha, hp⟩
    have hn : ¬ (r.append = false ∨ r.page = 1) := by
      rintro (h | h)
      · rw [ha] at h; exact Bool.noConfusion h
      · omega
    simp only [fetchSettle, if_neg hd, if_neg hn, and_self]
  · intro query page hq hp
    have hn : ¬ page = 1 := by omega
    simp [fetchMovies, fetchStart_of_ne _ _ _ _ _ _ hq, fetchSettle, hd, hn]

/-- The theorem of C3 at a concrete input: the response to a first page for a
query that matches nothing. -/
theorem C3_negative_response_witness :
    (fetchSettle { State.initial with movies := [⟨"Batman", "1989", "tt0096895", "movie", "N/A"⟩],
                                      totalPages := 5 }
        { params := buildParams "" "" "zzzzzznotfound" 1, page := 1, append := false }
        (.resolved ⟨"False", [], 0, some "Movie not found!"⟩)).error = "Movie not found!" :=
  (C3_negative_response _ _ ⟨"False", [], 0, some "Movie not found!"⟩ (by decide)).1
    (Or.inl rfl) |>.2.2.1 "Movie not found!" rfl (by decide)

/-- C4: when the request throws, `error` becomes `'Failed to fetch movies'`; the
results are emptied when `append` is false and are left as they were when `append`
is true, so that non-empty results become empty exactly when `append` is false. -/
theorem C4_transport_failure (s : State) (r : Request) :
    (fetchSettle s r .rejected).error = "Failed to fetch movies" ∧
    (r.append = false → (fetchSettle s r .rejected).movies = []) ∧
    (r.append = true → (fetchSettle s r .rejected).movies = s.movies) ∧
    (s.movies ≠ [] → ((fetchSettle s r .rejected).movies = [] ↔ r.append = false)) ∧
    (∀ (query : String) (page : Nat) (append : Bool), query ≠ "" →
      (fetchMovies s query page append .rejected).error = "Failed to fetch movies" ∧
      (fetchMovies s query page append .rejected).movies =
        if append = false then [] else s.movies) := by
  refine ⟨rfl, ?_, ?_, ?_, ?_⟩
  · intro h
    simp [fetchSettle, h]
  · intro h
    simp [fetchSettle, h]
  · intro hne
    cases h : r.append <;> simp [fetchSettle, h, hne]
  · intro query page append hq
    simp [fetchMovies, fetchStart_of_ne _ _ _ _ _ _ hq, fetchSettle]

/-- C8: `handleScroll` raises the page by one exactly when
`innerHeight + scrollTop + 100 ≥ scrollHeight`, `loading` is false and
`pageNumber < totalPages`; in every other case, in particular when `loading` is
true or `pageNumber ≥ totalPages`, it leaves the state as it is.  It never touches
anything but the page. -/
theorem C8_handleScroll (s : State) (h t H : Int) :
    ((handleScroll s h t H).pageNumber = s.pageNumber + 1 ↔
      (h + t + 100 ≥ H ∧ s.loading = false ∧ s.pageNumber < s.totalPages)) ∧
    (¬ (h + t + 100 ≥ H ∧ s.loading = false ∧ s.pageNumber < s.totalPages) →
      handleScroll s h t H = s) ∧
    (s.loading = true ∨ s.totalPages ≤ s.pageNumber → handleScroll s h t H = s) ∧
    handleScroll s h t H = { s with pageNumber := (handleScroll s h t H).pageNumber } := by
  unfold handleScroll
  by_cases hc : h + t + 100 ≥ H ∧ s.loading = false ∧ s.pageNumber < s.totalPages
  · rw [if_pos hc]
    refine ⟨⟨fun _ => hc, fun _ => rfl⟩, fun hn => absurd hc hn, ?_, rfl⟩
    rintro (hl | hp)
    · rw [hc.2.1] at hl; exact Bool.noConfusion hl
    · have := hc.2.2
      omega
  · rw [if_neg hc]
    refine ⟨⟨fun hp => ?_, fun h1 => absurd h1 hc⟩, fun _ => rfl, fun _ => rfl, rfl⟩
    omega

/-- C10: the request built by `fetchMovies` has the parameter `y`, with the year
filter as its value, exactly when the year filter consists of four decimal
digits, and has no `y` otherwise; `"202"` is not sent and `"2020"` is; whatever
the year filter, a call with a non-empty query sends its request and leaves
`error` empty. -/
theorem C10_year_parameter (typeFilter yearFilter query : String) (page : Nat) :
    ((buildParams typeFilter yearFilter query page).y = some yearFilter ↔
      (yearFilter.length = 4 ∧ ∀ c ∈ yearFilter.toList, 48 ≤ c.toNat ∧ c.toNat ≤ 57)) ∧
    (¬ (yearFilter.length = 4 ∧ ∀ c ∈ yearFilter.toList, 48 ≤ c.toNat ∧ c.toNat ≤ 57) →
      (buildParams typeFilter yearFilter query page).y = none) ∧
    (buildParams typeFilter "202" query page).y = none ∧
    (buildParams typeFilter "2020" query page).y = some "2020" ∧
    (∀ (s : State) (append : Bool), query ≠ "" →
      ∃ r, fetchStart typeFilter yearFilter s query page append =
          some ({ s with loading := true, error := "" }, r) ∧
        r.params = buildParams typeFilter yearFilter query page) := by
  have hne : yearRegexTest yearFilter = true → yearFilter ≠ "" := by
    intro h he
    rw [he] at h
    exact Bool.noConfusion h
  have key : (buildParams typeFilter yearFilter query page).y =
      if yearRegexTest yearFilter = true then some yearFilter else none := by
    by_cases h : yearRegexTest yearFilter = true
    · simp [buildParams, h, hne h]
    · simp [buildParams, h]
  refine ⟨?_, ?_, rfl, rfl, ?_⟩
  · rw [key, ← yearRegexTest_iff]
    by_cases h : yearRegexTest yearFilter = true <;> simp [h]
  · rw [key, ← yearRegexTest_iff]
    intro h
    simp [h]
  · intro s append hq
    exact ⟨_, fetchStart_of_ne _ _ _ _ _ _ hq, rfl⟩

/-! ## Lemmas on the world -/

theorem getRandomKeyword_ne (i : Fin 10) : getRandomKeyword i ≠ "" := by
  revert i; decide

theorem getRandomKeyword_mem (i : Fin 10) : getRandomKeyword i ∈ randomKeywords := by
  revert i; decide

theorem ne_empty_of_not_blank (q : String) (h : isBlank q = false) : q ≠ "" := by
  intro he
  rw [he] at h
  exact Bool.noConfusion h

theorem pageQuery_ne (rnd : Nat → Fin 10) (w : World) : pageQuery rnd w ≠ "" := by
  unfold pageQuery
  split
  · next h => exact ne_empty_of_not_blank _ h.2
  · exact getRandomKeyword_ne _

/-- A call with a non-empty query sends its request. -/
theorem send_eq (w : World) (o : Origin) (tf yf q : String) (p : Nat) (a : Bool)
    (hq : q ≠ "") :
    w.send o tf yf q p a =
      { w with
        state := { w.state with loading := true, error := "" }
        inFlight := w.inFlight ++ [⟨buildParams tf yf q p, p, a⟩]
        sent := w.sent ++ [(o, ⟨buildParams tf yf q p, p, a⟩)] } := by
  simp [World.send, fetchStart, hq]

/-- The page effect sends one request, for the current page. -/
theorem pageEffect_eq (rnd : Nat → Fin 10) (w : World) :
    pageEffect rnd w =
      { w with
        state := { w.state with loading := true, error := "" }
        inFlight := w.inFlight ++
          [⟨buildParams w.state.typeFilter w.state.yearFilter (pageQuery rnd w)
              w.state.pageNumber, w.state.pageNumber, decide (w.state.pageNumber > 1)⟩]
        sent := w.sent ++
          [(Origin.pageEffect,
            ⟨buildParams w.state.typeFilter w.state.yearFilter (pageQuery rnd w)
              w.state.pageNumber, w.state.pageNumber, decide (w.state.pageNumber > 1)⟩)]
        draws := if w.state.isSearchMode = true ∧ isBlank w.state.searchQuery = false
          then w.draws else w.draws + 1 } := by
  unfold pageEffect pageQuery
  by_cases h : w.state.isSearchMode = true ∧ isBlank w.state.searchQuery = false
  · simp only [if_pos h]
    rw [send_eq _ _ _ _ _ _ _ (ne_empty_of_not_blank _ h.2)]
  · simp only [if_neg h]
    rw [send_eq _ _ _ _ _ _ _ (getRandomKeyword_ne _)]

/-- The query effect for a blank search text. -/
theorem queryEffect_blank (rnd : Nat → Fin 10) (w : World)
    (h : isBlank w.state.searchQuery = true) :
    queryEffect rnd w =
      { w with
        state := { w.state with isSearchMode := false, pageNumber := 1, loading := true,
                                error := "" }
        draws := w.draws + 1
        cleanup := false
        inFlight := w.inFlight ++
          [⟨buildParams w.state.typeFilter w.state.yearFilter (getRandomKeyword (rnd w.draws)) 1,
            1, false⟩]
        sent := w.sent ++
          [(Origin.queryEffect,
            ⟨buildParams w.state.typeFilter w.state.yearFilter
              (getRandomKeyword (rnd w.draws)) 1, 1, false⟩)] } := by
  unfold queryEffect
  simp only [if_pos h]
  rw [send_eq _ _ _ _ _ _ _ (getRandomKeyword_ne _)]

/-- The query effect for a search text that is not blank. -/
theorem queryEffect_search (rnd : Nat → Fin 10) (w : World)
    (h : isBlank w.state.searchQuery = false) :
    queryEffect rnd w =
      { w with
        state := { w.state with isSearchMode := true, pageNumber := 1 }
        timeouts := (w.clearTimeout w.debounceTimer).timeouts ++
          [{ id := w.nextTimeoutId, deadline := w.now + 500, query := w.state.searchQuery,
             typeFilter := w.state.typeFilter, yearFilter := w.state.yearFilter }]
        debounceTimer := some w.nextTimeoutId
        nextTimeoutId := w.nextTimeoutId + 1
        cleanup := true } := by
  unfold queryEffect
  have h2 : ¬ isBlank w.state.searchQuery = true := by simp [h]
  simp only [if_neg h2]
  cases hd : w.debounceTimer <;> simp [World.clearTimeout, hd]

/-! ### What a call of fetchMovies leaves alone -/

theorem send_timeouts (w : World) (o : Origin) (tf yf q : String) (p : Nat) (a : Bool) :
    (w.send o tf yf q p a).timeouts = w.timeouts := by
  unfold World.send fetchStart; split_ifs <;> rfl

theorem send_debounceTimer (w : World) (o : Origin) (tf yf q : String) (p : Nat) (a : Bool) :
    (w.send o tf yf q p a).debounceTimer = w.debounceTimer := by
  unfold World.send fetchStart; split_ifs <;> rfl

theorem send_nextTimeoutId (w : World) (o : Origin) (tf yf q : String) (p : Nat) (a : Bool) :
    (w.send o tf yf q p a).nextTimeoutId = w.nextTimeoutId := by
  unfold World.send fetchStart; split_ifs <;> rfl

theorem send_cleanup (w : World) (o : Origin) (tf yf q : String) (p : Nat) (a : Bool) :
    (w.send o tf yf q p a).cleanup = w.cleanup := by
  unfold World.send fetchStart; split_ifs <;> rfl

theorem send_now (w : World) (o : Origin) (tf yf q : String) (p : Nat) (a : Bool) :
    (w.send o tf yf q p a).now = w.now := by
  unfold World.send fetchStart; split_ifs <;> rfl

theorem send_searchQuery (w : World) (o : Origin) (tf yf q : String) (p : Nat) (a : Bool) :
    (w.send o tf yf q p a).state.searchQuery = w.state.searchQuery := by
  unfold World.send fetchStart; split_ifs <;> rfl

theorem send_typeFilter (w : World) (o : Origin) (tf yf q : String) (p : Nat) (a : Bool) :
    (w.send o tf yf q p a).state.typeFilter = w.state.typeFilter := by
  unfold World.send fetchStart; split_ifs <;> rfl

theorem send_yearFilter (w : World) (o : Origin) (tf yf q : String) (p : Nat) (a : Bool) :
    (w.send o tf yf q p a).state.yearFilter = w.state.yearFilter := by
  unfold World.send fetchStart; split_ifs <;> rfl

theorem send_isSearchMode (w : World) (o : Origin) (tf yf q : String) (p : Nat) (a : Bool) :
    (w.send o tf yf q p a).state.isSearchMode = w.state.isSearchMode := by
  unfold World.send fetchStart; split_ifs <;> rfl

theorem send_pageNumber (w : World) (o : Origin) (tf yf q : String) (p : Nat) (a : Bool) :
    (w.send o tf yf q p a).state.pageNumber = w.state.pageNumber := by
  unfold World.send fetchStart; split_ifs <;> rfl

theorem send_totalPages (w : World) (o : Origin) (tf yf q : String) (p : Nat) (a : Bool) :
    (w.send o tf yf q p a).state.totalPages = w.state.totalPages := by
  unfold World.send fetchStart; split_ifs <;> rfl

theorem fetchSettle_pageNumber (s : State) (r : Request) (o : Outcome) :
    (fetchSettle s r o).pageNumber = s.pageNumber := by
  unfold fetchSettle; split <;> (try split_ifs) <;> rfl

theorem fetchSettle_searchQuery (s : State) (r : Request) (o : Outcome) :
    (fetchSettle s r o).searchQuery = s.searchQuery := by
  unfold fetchSettle; split <;> (try split_ifs) <;> rfl

theorem fetchSettle_isSearchMode (s : State) (r : Request) (o : Outcome) :
    (fetchSettle s r o).isSearchMode = s.isSearchMode := by
  unfold fetchSettle; split <;> (try split_ifs) <;> rfl

/-! ### The invariant -/

theorem clearTimeout_eq (w : World) (id : Option Nat) :
    w.clearTimeout id = { w with timeouts := (w.clearTimeout id).timeouts } := by
  cases id <;> rfl

theorem clearTimeout_debounceTimer (w : World) (id : Option Nat) :
    (w.clearTimeout id).debounceTimer = w.debounceTimer := by
  cases id <;> rfl

/-- Clearing the timeout `debounceTimer` names leaves none pending. -/
theorem clearTimeout_of_inv (w : World) (h : TimerInv w) :
    (w.clearTimeout w.debounceTimer).timeouts = [] := by
  rcases h with h | ⟨t, ht, hd⟩
  · cases hd : w.debounceTimer <;> simp [World.clearTimeout, h]
  · simp [World.clearTimeout, hd, ht]

theorem timerInv_congr {w w1 : World} (h1 : w1.timeouts = w.timeouts)
    (h2 : w1.debounceTimer = w.debounceTimer) : TimerInv w1 ↔ TimerInv w := by
  unfold TimerInv; rw [h1, h2]

theorem coherent_congr {w w1 : World} (h1 : w1.state.isSearchMode = w.state.isSearchMode)
    (h2 : w1.state.searchQuery = w.state.searchQuery) (h3 : w1.cleanup = w.cleanup) :
    Coherent w1 ↔ Coherent w := by
  unfold Coherent; rw [h1, h2, h3]

theorem pageEffect_timerInv (rnd : Nat → Fin 10) (w : World) :
    TimerInv (pageEffect rnd w) ↔ TimerInv w := by
  rw [pageEffect_eq]; exact timerInv_congr rfl rfl

theorem pageEffect_coherent (rnd : Nat → Fin 10) (w : World) :
    Coherent (pageEffect rnd w) ↔ Coherent w := by
  rw [pageEffect_eq]; exact coherent_congr rfl rfl rfl

theorem pageEffect_pageNumber (rnd : Nat → Fin 10) (w : World) :
    (pageEffect rnd w).state.pageNumber = w.state.pageNumber := by
  rw [pageEffect_eq]

theorem pageEffect_inv (rnd : Nat → Fin 10) (w : World) : Inv (pageEffect rnd w) ↔ Inv w := by
  unfold Inv
  rw [pageEffect_timerInv, pageEffect_coherent, pageEffect_pageNumber]

/-- The query effect establishes the invariant. -/
theorem queryEffect_inv (rnd : Nat → Fin 10) (w : World) (h : TimerInv w) :
    Inv (queryEffect rnd w) := by
  cases hb : isBlank w.state.searchQuery
  · rw [queryEffect_search rnd w hb]
    refine ⟨Or.inr ⟨⟨w.nextTimeoutId, w.now + 500, w.state.searchQuery, w.state.typeFilter,
      w.state.yearFilter⟩, ?_, rfl⟩, ⟨?_, ?_⟩, le_refl _⟩
    · simp [clearTimeout_of_inv w h]
    · simp [hb]
    · simp [hb]
  · rw [queryEffect_blank rnd w hb]
    refine ⟨(timerInv_congr rfl rfl).2 h, ⟨?_, ?_⟩, le_refl _⟩
    · simp [hb]
    · simp [hb]

/-! ### The effects, field by field -/

@[simp] theorem clearTimeout_state (w : World) (id : Option Nat) :
    (w.clearTimeout id).state = w.state := by
  cases id <;> rfl

@[simp] theorem clearTimeout_nextTimeoutId (w : World) (id : Option Nat) :
    (w.clearTimeout id).nextTimeoutId = w.nextTimeoutId := by
  cases id <;> rfl

@[simp] theorem clearTimeout_cleanup (w : World) (id : Option Nat) :
    (w.clearTimeout id).cleanup = w.cleanup := by
  cases id <;> rfl

@[simp] theorem clearTimeout_inFlight (w : World) (id : Option Nat) :
    (w.clearTimeout id).inFlight = w.inFlight := by
  cases id <;> rfl

@[simp] theorem clearTimeout_sent (w : World) (id : Option Nat) :
    (w.clearTimeout id).sent = w.sent := by
  cases id <;> rfl

@[simp] theorem clearTimeout_now (w : World) (id : Option Nat) :
    (w.clearTimeout id).now = w.now := by
  cases id <;> rfl

@[simp] theorem clearTimeout_draws (w : World) (id : Option Nat) :
    (w.clearTimeout id).draws = w.draws := by
  cases id <;> rfl

@[simp] theorem clearTimeout_positiveSeen (w : World) (id : Option Nat) :
    (w.clearTimeout id).positiveSeen = w.positiveSeen := by
  cases id <;> rfl

@[simp] theorem pageEffect_timeouts (rnd : Nat → Fin 10) (w : World) :
    (pageEffect rnd w).timeouts = w.timeouts := by
  rw [pageEffect_eq]

@[simp] theorem pageEffect_debounceTimer (rnd : Nat → Fin 10) (w : World) :
    (pageEffect rnd w).debounceTimer = w.debounceTimer := by
  rw [pageEffect_eq]

@[simp] theorem pageEffect_nextTimeoutId (rnd : Nat → Fin 10) (w : World) :
    (pageEffect rnd w).nextTimeoutId = w.nextTimeoutId := by
  rw [pageEffect_eq]

@[simp] theorem pageEffect_cleanup (rnd : Nat → Fin 10) (w : World) :
    (pageEffect rnd w).cleanup = w.cleanup := by
  rw [pageEffect_eq]

@[simp] theorem pageEffect_now (rnd : Nat → Fin 10) (w : World) :
    (pageEffect rnd w).now = w.now := by
  rw [pageEffect_eq]

@[simp] theorem pageEffect_positiveSeen (rnd : Nat → Fin 10) (w : World) :
    (pageEffect rnd w).positiveSeen = w.positiveSeen := by
  rw [pageEffect_eq]

@[simp] theorem pageEffect_movies (rnd : Nat → Fin 10) (w : World) :
    (pageEffect rnd w).state.movies = w.state.movies := by
  rw [pageEffect_eq]

@[simp] theorem pageEffect_searchQuery (rnd : Nat → Fin 10) (w : World) :
    (pageEffect rnd w).state.searchQuery = w.state.searchQuery := by
  rw [pageEffect_eq]

@[simp] theorem pageEffect_typeFilter (rnd : Nat → Fin 10) (w : World) :
    (pageEffect rnd w).state.typeFilter = w.state.typeFilter := by
  rw [pageEffect_eq]

@[simp] theorem pageEffect_yearFilter (rnd : Nat → Fin 10) (w : World) :
    (pageEffect rnd w).state.yearFilter = w.state.yearFilter := by
  rw [pageEffect_eq]

@[simp] theorem pageEffect_totalPages (rnd : Nat → Fin 10) (w : World) :
    (pageEffect rnd w).state.totalPages = w.state.totalPages := by
  rw [pageEffect_eq]

@[simp] theorem pageEffect_isSearchMode (rnd : Nat → Fin 10) (w : World) :
    (pageEffect rnd w).state.isSearchMode = w.state.isSearchMode := by
  rw [pageEffect_eq]

@[simp] theorem pageEffect_sent (rnd : Nat → Fin 10) (w : World) :
    (pageEffect rnd w).sent = w.sent ++
      [(Origin.pageEffect,
        ⟨buildParams w.state.typeFilter w.state.yearFilter (pageQuery rnd w)
          w.state.pageNumber, w.state.pageNumber, decide (w.state.pageNumber > 1)⟩)] := by
  rw [pageEffect_eq]

@[simp] theorem queryEffect_now (rnd : Nat → Fin 10) (w : World) :
    (queryEffect rnd w).now = w.now := by
  cases hb : isBlank w.state.searchQuery
  · rw [queryEffect_search rnd w hb]
  · rw [queryEffect_blank rnd w hb]

@[simp] theorem queryEffect_positiveSeen (rnd : Nat → Fin 10) (w : World) :
    (queryEffect rnd w).positiveSeen = w.positiveSeen := by
  cases hb : isBlank w.state.searchQuery
  · rw [queryEffect_search rnd w hb]
  · rw [queryEffect_blank rnd w hb]

@[simp] theorem queryEffect_movies (rnd : Nat → Fin 10) (w : World) :
    (queryEffect rnd w).state.movies = w.state.movies := by
  cases hb : isBlank w.state.searchQuery
  · rw [queryEffect_search rnd w hb]
  · rw [queryEffect_blank rnd w hb]

@[simp] theorem queryEffect_searchQuery (rnd : Nat → Fin 10) (w : World) :
    (queryEffect rnd w).state.searchQuery = w.state.searchQuery := by
  cases hb : isBlank w.state.searchQuery
  · rw [queryEffect_search rnd w hb]
  · rw [queryEffect_blank rnd w hb]

@[simp] theorem queryEffect_typeFilter (rnd : Nat → Fin 10) (w : World) :
    (queryEffect rnd w).state.typeFilter = w.state.typeFilter := by
  cases hb : isBlank w.state.searchQuery
  · rw [queryEffect_search rnd w hb]
  · rw [queryEffect_blank rnd w hb]

@[simp] theorem queryEffect_yearFilter (rnd : Nat → Fin 10) (w : World) :
    (queryEffect rnd w).state.yearFilter = w.state.yearFilter := by
  cases hb : isBlank w.state.searchQuery
  · rw [queryEffect_search rnd w hb]
  · rw [queryEffect_blank rnd w hb]

@[simp] theorem queryEffect_totalPages (rnd : Nat → Fin 10) (w : World) :
    (queryEffect rnd w).state.totalPages = w.state.totalPages := by
  cases hb : isBlank w.state.searchQuery
  · rw [queryEffect_search rnd w hb]
  · rw [queryEffect_blank rnd w hb]

@[simp] theorem queryEffect_pageNumber (rnd : Nat → Fin 10) (w : World) :
    (queryEffect rnd w).state.pageNumber = 1 := by
  cases hb : isBlank w.state.searchQuery
  · rw [queryEffect_search rnd w hb]
  · rw [queryEffect_blank rnd w hb]

@[simp] theorem queryEffect_isSearchMode (rnd : Nat → Fin 10) (w : World) :
    (queryEffect rnd w).state.isSearchMode = !isBlank w.state.searchQuery := by
  cases hb : isBlank w.state.searchQuery
  · rw [queryEffect_search rnd w hb]; rfl
  · rw [queryEffect_blank rnd w hb]; rfl

@[simp] theorem queryEffect_cleanup (rnd : Nat → Fin 10) (w : World) :
    (queryEffect rnd w).cleanup = !isBlank w.state.searchQuery := by
  cases hb : isBlank w.state.searchQuery
  · rw [queryEffect_search rnd w hb]; rfl
  · rw [queryEffect_blank rnd w hb]; rfl

theorem queryEffect_timers_blank (rnd : Nat → Fin 10) (w : World)
    (hb : isBlank w.state.searchQuery = true) :
    (queryEffect rnd w).timeouts = w.timeouts ∧
    (queryEffect rnd w).debounceTimer = w.debounceTimer ∧
    (queryEffect rnd w).nextTimeoutId = w.nextTimeoutId := by
  rw [queryEffect_blank rnd w hb]
  exact ⟨rfl, rfl, rfl⟩

theorem queryEffect_timers_search (rnd : Nat → Fin 10) (w : World)
    (hb : isBlank w.state.searchQuery = false) (ht : TimerInv w) :
    (queryEffect rnd w).timeouts =
      [⟨w.nextTimeoutId, w.now + 500, w.state.searchQuery, w.state.typeFilter,
        w.state.yearFilter⟩] ∧
    (queryEffect rnd w).debounceTimer = some w.nextTimeoutId ∧
    (queryEffect rnd w).nextTimeoutId = w.nextTimeoutId + 1 := by
  rw [queryEffect_search rnd w hb]
  refine ⟨?_, rfl, rfl⟩
  simp [clearTimeout_of_inv w ht]

theorem queryEffect_sent_blank (rnd : Nat → Fin 10) (w : World)
    (hb : isBlank w.state.searchQuery = true) :
    (queryEffect rnd w).sent = w.sent ++
      [(Origin.queryEffect,
        ⟨buildParams w.state.typeFilter w.state.yearFilter (getRandomKeyword (rnd w.draws)) 1,
          1, false⟩)] := by
  rw [queryEffect_blank rnd w hb]

theorem queryEffect_sent_search (rnd : Nat → Fin 10) (w : World)
    (hb : isBlank w.state.searchQuery = false) :
    (queryEffect rnd w).sent = w.sent := by
  rw [queryEffect_search rnd w hb]

/-- The query the page effect resolves is the search text in Search mode and a
word of the vocabulary otherwise. -/
theorem pageQuery_cases (rnd : Nat → Fin 10) (w : World) :
    (w.state.isSearchMode = true ∧ isBlank w.state.searchQuery = false ∧
      pageQuery rnd w = w.state.searchQuery) ∨
    (¬ (w.state.isSearchMode = true ∧ isBlank w.state.searchQuery = false) ∧
      pageQuery rnd w ∈ randomKeywords) := by
  unfold pageQuery
  by_cases h : w.state.isSearchMode = true ∧ isBlank w.state.searchQuery = false
  · left; exact ⟨h.1, h.2, if_pos h⟩
  · right; rw [if_neg h]; exact ⟨h, getRandomKeyword_mem _⟩

/-! ### The render after a handler, stage by stage -/

theorem queryDeps_eq_false {old s : State} (h : queryDeps old s = false) :
    old.searchQuery = s.searchQuery ∧ old.typeFilter = s.typeFilter ∧
      old.yearFilter = s.yearFilter := by
  have h2 := of_decide_eq_false h
  simp only [not_or, not_not] at h2
  exact h2

@[simp] theorem commitCleanup_state (old : State) (w : World) :
    (commitCleanup old w).state = w.state := by
  unfold commitCleanup; split_ifs <;> simp

@[simp] theorem commitCleanup_debounceTimer (old : State) (w : World) :
    (commitCleanup old w).debounceTimer = w.debounceTimer := by
  unfold commitCleanup; split_ifs <;> simp [clearTimeout_debounceTimer]

@[simp] theorem commitCleanup_nextTimeoutId (old : State) (w : World) :
    (commitCleanup old w).nextTimeoutId = w.nextTimeoutId := by
  unfold commitCleanup; split_ifs <;> simp

@[simp] theorem commitCleanup_cleanup (old : State) (w : World) :
    (commitCleanup old w).cleanup = w.cleanup := by
  unfold commitCleanup; split_ifs <;> simp

@[simp] theorem commitCleanup_sent (old : State) (w : World) :
    (commitCleanup old w).sent = w.sent := by
  unfold commitCleanup; split_ifs <;> simp

@[simp] theorem commitCleanup_now (old : State) (w : World) :
    (commitCleanup old w).now = w.now := by
  unfold commitCleanup; split_ifs <;> simp

@[simp] theorem commitCleanup_draws (old : State) (w : World) :
    (commitCleanup old w).draws = w.draws := by
  unfold commitCleanup; split_ifs <;> simp

@[simp] theorem commitCleanup_positiveSeen (old : State) (w : World) :
    (commitCleanup old w).positiveSeen = w.positiveSeen := by
  unfold commitCleanup; split_ifs <;> simp

theorem commitCleanup_timeouts (old : State) (w : World) (ht : TimerInv w) :
    (commitCleanup old w).timeouts =
      if (queryDeps old w.state && w.cleanup) = true then [] else w.timeouts := by
  unfold commitCleanup
  split_ifs
  · exact clearTimeout_of_inv w ht
  · rfl

theorem commitCleanup_timerInv (old : State) (w : World) (ht : TimerInv w) :
    TimerInv (commitCleanup old w) := by
  unfold TimerInv
  rw [commitCleanup_timeouts old w ht, commitCleanup_debounceTimer]
  split_ifs
  · exact Or.inl rfl
  · exact ht

@[simp] theorem pageQuery_commitCleanup (rnd : Nat → Fin 10) (old : State) (w : World) :
    pageQuery rnd (commitCleanup old w) = pageQuery rnd w := by
  unfold pageQuery; simp

@[simp] theorem commitPage_timeouts (rnd : Nat → Fin 10) (old : State) (w : World) :
    (commitPage rnd old w).timeouts = (commitCleanup old w).timeouts := by
  unfold commitPage; split_ifs <;> simp

@[simp] theorem commitPage_debounceTimer (rnd : Nat → Fin 10) (old : State) (w : World) :
    (commitPage rnd old w).debounceTimer = w.debounceTimer := by
  unfold commitPage; split_ifs <;> simp

@[simp] theorem commitPage_nextTimeoutId (rnd : Nat → Fin 10) (old : State) (w : World) :
    (commitPage rnd old w).nextTimeoutId = w.nextTimeoutId := by
  unfold commitPage; split_ifs <;> simp

@[simp] theorem commitPage_cleanup (rnd : Nat → Fin 10) (old : State) (w : World) :
    (commitPage rnd old w).cleanup = w.cleanup := by
  unfold commitPage; split_ifs <;> simp

@[simp] theorem commitPage_now (rnd : Nat → Fin 10) (old : State) (w : World) :
    (commitPage rnd old w).now = w.now := by
  unfold commitPage; split_ifs <;> simp

@[simp] theorem commitPage_positiveSeen (rnd : Nat → Fin 10) (old : State) (w : World) :
    (commitPage rnd old w).positiveSeen = w.positiveSeen := by
  unfold commitPage; split_ifs <;> simp

@[simp] theorem commitPage_movies (rnd : Nat → Fin 10) (old : State) (w : World) :
    (commitPage rnd old w).state.movies = w.state.movies := by
  unfold commitPage; split_ifs <;> simp

@[simp] theorem commitPage_searchQuery (rnd : Nat → Fin 10) (old : State) (w : World) :
    (commitPage rnd old w).state.searchQuery = w.state.searchQuery := by
  unfold commitPage; split_ifs <;> simp

@[simp] theorem commitPage_typeFilter (rnd : Nat → Fin 10) (old : State) (w : World) :
    (commitPage rnd old w).state.typeFilter = w.state.typeFilter := by
  unfold commitPage; split_ifs <;> simp

@[simp] theorem commitPage_yearFilter (rnd : Nat → Fin 10) (old : State) (w : World) :
    (commitPage rnd old w).state.yearFilter = w.state.yearFilter := by
  unfold commitPage; split_ifs <;> simp

@[simp] theorem commitPage_pageNumber (rnd : Nat → Fin 10) (old : State) (w : World) :
    (commitPage rnd old w).state.pageNumber = w.state.pageNumber := by
  unfold commitPage; split_ifs <;> simp [pageEffect_pageNumber]

@[simp] theorem commitPage_totalPages (rnd : Nat → Fin 10) (old : State) (w : World) :
    (commitPage rnd old w).state.totalPages = w.state.totalPages := by
  unfold commitPage; split_ifs <;> simp

@[simp] theorem commitPage_isSearchMode (rnd : Nat → Fin 10) (old : State) (w : World) :
    (commitPage rnd old w).state.isSearchMode = w.state.isSearchMode := by
  unfold commitPage; split_ifs <;> simp

theorem commitPage_sent (rnd : Nat → Fin 10) (old : State) (w : World) :
    (commitPage rnd old w).sent = w.sent ++
      if pageDeps old w.state = true then
        [(Origin.pageEffect,
          ⟨buildParams w.state.typeFilter w.state.yearFilter (pageQuery rnd w)
            w.state.pageNumber, w.state.pageNumber, decide (w.state.pageNumber > 1)⟩)]
      else [] := by
  unfold commitPage; split_ifs <;> simp

theorem commitPage_timerInv (rnd : Nat → Fin 10) (old : State) (w : World) (ht : TimerInv w) :
    TimerInv (commitPage rnd old w) :=
  (timerInv_congr (commitPage_timeouts rnd old w)
    ((commitPage_debounceTimer rnd old w).trans (commitCleanup_debounceTimer old w).symm)).2
    (commitCleanup_timerInv old w ht)

@[simp] theorem commitQuery_now (rnd : Nat → Fin 10) (old : State) (w : World) :
    (commitQuery rnd old w).now = w.now := by
  unfold commitQuery; split_ifs <;> simp

@[simp] theorem commitQuery_positiveSeen (rnd : Nat → Fin 10) (old : State) (w : World) :
    (commitQuery rnd old w).positiveSeen = w.positiveSeen := by
  unfold commitQuery; split_ifs <;> simp

@[simp] theorem commitQuery_movies (rnd : Nat → Fin 10) (old : State) (w : World) :
    (commitQuery rnd old w).state.movies = w.state.movies := by
  unfold commitQuery; split_ifs <;> simp

@[simp] theorem commitQuery_searchQuery (rnd : Nat → Fin 10) (old : State) (w : World) :
    (commitQuery rnd old w).state.searchQuery = w.state.searchQuery := by
  unfold commitQuery; split_ifs <;> simp

@[simp] theorem commitQuery_typeFilter (rnd : Nat → Fin 10) (old : State) (w : World) :
    (commitQuery rnd old w).state.typeFilter = w.state.typeFilter := by
  unfold commitQuery; split_ifs <;> simp

@[simp] theorem commitQuery_yearFilter (rnd : Nat → Fin 10) (old : State) (w : World) :
    (commitQuery rnd old w).state.yearFilter = w.state.yearFilter := by
  unfold commitQuery; split_ifs <;> simp

@[simp] theorem commitQuery_totalPages (rnd : Nat → Fin 10) (old : State) (w : World) :
    (commitQuery rnd old w).state.totalPages = w.state.totalPages := by
  unfold commitQuery; split_ifs <;> simp

theorem commitQuery_pageNumber (rnd : Nat → Fin 10) (old : State) (w : World) :
    (commitQuery rnd old w).state.pageNumber =
      if queryDeps old w.state = true then 1 else w.state.pageNumber := by
  unfold commitQuery; split_ifs <;> simp

theorem commitQuery_isSearchMode (rnd : Nat → Fin 10) (old : State) (w : World) :
    (commitQuery rnd old w).state.isSearchMode =
      if queryDeps old w.state = true then !isBlank w.state.searchQuery
      else w.state.isSearchMode := by
  unfold commitQuery; split_ifs <;> simp

theorem commitQuery_inv (rnd : Nat → Fin 10) (old : State) (w : World) (ht : TimerInv w)
    (hp : 1 ≤ w.state.pageNumber)
    (hc : old.searchQuery = w.state.searchQuery → old.typeFilter = w.state.typeFilter →
      old.yearFilter = w.state.yearFilter → Coherent w) :
    Inv (commitQuery rnd old w) := by
  unfold commitQuery
  cases hq : queryDeps old w.state
  · simp only [Bool.false_eq_true, if_false]
    obtain ⟨e1, e2, e3⟩ := queryDeps_eq_false hq
    refine ⟨commitPage_timerInv rnd old w ht, ?_, ?_⟩
    · refine (coherent_congr (w := w) ?_ ?_ ?_).2 (hc e1 e2 e3) <;> simp
    · simpa using hp
  · simp only [if_true]
    exact queryEffect_inv rnd _ (commitPage_timerInv rnd old w ht)

/-- The effects after a handler keep the invariant, provided the handler left the
timeouts and the page in order and, when it did not touch the dependencies of the
query effect, the mode as well. -/
theorem commit_inv (rnd : Nat → Fin 10) (old : State) (w : World) (ht : TimerInv w)
    (hp : 1 ≤ w.state.pageNumber)
    (hc : old.searchQuery = w.state.searchQuery → old.typeFilter = w.state.typeFilter →
      old.yearFilter = w.state.yearFilter → Coherent w) :
    Inv (commit rnd old w) := by
  have h3 := commitQuery_inv rnd old w ht hp hc
  unfold commit
  split_ifs
  · exact (pageEffect_inv rnd _).2 h3
  · exact h3

/-- The callbacks of timeouts only send requests. -/
theorem foldl_fire_frame (ts : List Timeout) (w : World) :
    (ts.foldl World.fire w).timeouts = w.timeouts ∧
    (ts.foldl World.fire w).debounceTimer = w.debounceTimer ∧
    (ts.foldl World.fire w).nextTimeoutId = w.nextTimeoutId ∧
    (ts.foldl World.fire w).cleanup = w.cleanup ∧
    (ts.foldl World.fire w).now = w.now ∧
    (ts.foldl World.fire w).state.isSearchMode = w.state.isSearchMode ∧
    (ts.foldl World.fire w).state.searchQuery = w.state.searchQuery ∧
    (ts.foldl World.fire w).state.typeFilter = w.state.typeFilter ∧
    (ts.foldl World.fire w).state.yearFilter = w.state.yearFilter ∧
    (ts.foldl World.fire w).state.pageNumber = w.state.pageNumber ∧
    (ts.foldl World.fire w).state.totalPages = w.state.totalPages := by
  induction ts generalizing w with
  | nil => simp
  | cons t ts ih =>
    simp only [List.foldl_cons]
    have h := ih (w.fire t)
    simp only [World.fire, send_timeouts, send_debounceTimer, send_nextTimeoutId, send_cleanup,
      send_now, send_isSearchMode, send_searchQuery, send_typeFilter, send_yearFilter,
      send_pageNumber, send_totalPages] at h
    exact h

theorem advance_inv (w : World) (ms : Nat) (h : Inv w) : Inv (w.advance ms) := by
  unfold World.advance
  simp only
  have hf := foldl_fire_frame (w.timeouts.filter (fun t => t.deadline ≤ w.now + ms))
    { w with timeouts := w.timeouts.filter (fun t => ¬ t.deadline ≤ w.now + ms),
             now := w.now + ms }
  obtain ⟨f1, f2, -, f4, -, f6, f7, -, -, f10, -⟩ := hf
  refine ⟨?_, ?_, ?_⟩
  · unfold TimerInv
    rw [f1, f2]
    rcases h.1 with h0 | ⟨t, ht, hd⟩
    · left; simp [h0]
    · by_cases hdue : t.deadline ≤ w.now + ms
      · left; simp [ht, hdue]
      · right; exact ⟨t, by simp only [ht]; simp; omega, hd⟩
  · exact (coherent_congr f6 f7 f4).2 h.2.1
  · rw [f10]; exact h.2.2

theorem handleScroll_frame (s : State) (h t H : Int) :
    (handleScroll s h t H).isSearchMode = s.isSearchMode ∧
    (handleScroll s h t H).searchQuery = s.searchQuery ∧
    (handleScroll s h t H).typeFilter = s.typeFilter ∧
    (handleScroll s h t H).yearFilter = s.yearFilter ∧
    (handleScroll s h t H).totalPages = s.totalPages ∧
    s.pageNumber ≤ (handleScroll s h t H).pageNumber := by
  unfold handleScroll
  split_ifs <;> simp

theorem isBlank_empty : isBlank "" = true := rfl

/-- Every event keeps the invariant. -/
theorem step_inv (rnd : Nat → Fin 10) (w : World) (e : Event) (h : Inv w) :
    Inv (step rnd w e) := by
  obtain ⟨ht, hc, hp⟩ := h
  cases e with
  | changeQuery v =>
    refine commit_inv rnd _ _ ht hp ?_
    intro h1 _ _
    have h1 : w.state.searchQuery = v := h1
    unfold Coherent
    simp only
    rw [← h1]
    exact hc
  | changeType v => exact commit_inv rnd _ _ ht hp (fun _ _ _ => hc)
  | changeYear v => exact commit_inv rnd _ _ ht hp (fun _ _ _ => hc)
  | scroll a b c =>
    have hf := handleScroll_frame w.state a b c
    refine commit_inv rnd _ _ ht (le_trans hp hf.2.2.2.2.2) ?_
    intro _ _ _
    refine (coherent_congr (w := w) ?_ ?_ ?_).2 hc
    · exact hf.1
    · exact hf.2.1
    · rfl
  | clear =>
    refine commit_inv rnd _ _ ?_ ?_ ?_
    · unfold clearSearch
      exact (timerInv_congr (send_timeouts _ _ _ _ _ _ _) (send_debounceTimer _ _ _ _ _ _ _)).2 ht
    · unfold clearSearch
      rw [send_pageNumber]
    · unfold clearSearch
      rw [send_searchQuery]
      intro h1 _ _
      have h1 : w.state.searchQuery = "" := h1
      unfold Coherent
      rw [send_isSearchMode, send_searchQuery, send_cleanup]
      simp only [isBlank_empty, Bool.not_true]
      refine ⟨trivial, ?_⟩
      rw [hc.2, h1, isBlank_empty]
      rfl
  | wait ms => exact advance_inv w ms ⟨ht, hc, hp⟩
  | settle i o =>
    simp only [step]
    split
    · exact ⟨ht, hc, hp⟩
    · next r _ =>
      refine ⟨ht, ?_, ?_⟩
      · refine (coherent_congr (w := w) ?_ ?_ ?_).2 hc
        · exact fetchSettle_isSearchMode _ _ _
        · exact fetchSettle_searchQuery _ _ _
        · rfl
      · show 1 ≤ (fetchSettle w.state r o).pageNumber
        rw [fetchSettle_pageNumber]; exact hp

theorem mount_inv (rnd : Nat → Fin 10) : Inv (mount rnd) :=
  queryEffect_inv rnd _ ((pageEffect_timerInv rnd _).2 (Or.inl rfl))

theorem reachable_inv (rnd : Nat → Fin 10) (w : World) (h : Reachable rnd w) : Inv w := by
  induction h with
  | mount => exact mount_inv rnd
  | step w e _ ih => exact step_inv rnd w e ih

/-! ### The render after a handler, as a whole -/

@[simp] theorem commit_now (rnd : Nat → Fin 10) (old : State) (w : World) :
    (commit rnd old w).now = w.now := by
  unfold commit; split_ifs <;> simp

@[simp] theorem commit_positiveSeen (rnd : Nat → Fin 10) (old : State) (w : World) :
    (commit rnd old w).positiveSeen = w.positiveSeen := by
  unfold commit; split_ifs <;> simp

@[simp] theorem commit_movies (rnd : Nat → Fin 10) (old : State) (w : World) :
    (commit rnd old w).state.movies = w.state.movies := by
  unfold commit; split_ifs <;> simp

@[simp] theorem commit_searchQuery (rnd : Nat → Fin 10) (old : State) (w : World) :
    (commit rnd old w).state.searchQuery = w.state.searchQuery := by
  unfold commit; split_ifs <;> simp

@[simp] theorem commit_typeFilter (rnd : Nat → Fin 10) (old : State) (w : World) :
    (commit rnd old w).state.typeFilter = w.state.typeFilter := by
  unfold commit; split_ifs <;> simp

@[simp] theorem commit_yearFilter (rnd : Nat → Fin 10) (old : State) (w : World) :
    (commit rnd old w).state.yearFilter = w.state.yearFilter := by
  unfold commit; split_ifs <;> simp

@[simp] theorem commit_totalPages (rnd : Nat → Fin 10) (old : State) (w : World) :
    (commit rnd old w).state.totalPages = w.state.totalPages := by
  unfold commit; split_ifs <;> simp

/-- The page after the render: 1 when the query effect ran, untouched otherwise. -/
theorem commit_pageNumber (rnd : Nat → Fin 10) (old : State) (w : World) :
    (commit rnd old w).state.pageNumber =
      if queryDeps old w.state = true then 1 else w.state.pageNumber := by
  unfold commit; split_ifs <;> simp [pageEffect_pageNumber, commitQuery_pageNumber, *]

/-- The timeouts after the render when the query effect did not run. -/
theorem commit_timers_idle (rnd : Nat → Fin 10) (old : State) (w : World)
    (hq : queryDeps old w.state = false) :
    (commit rnd old w).timeouts = w.timeouts ∧
    (commit rnd old w).debounceTimer = w.debounceTimer ∧
    (commit rnd old w).nextTimeoutId = w.nextTimeoutId := by
  have h3 : commitQuery rnd old w = commitPage rnd old w := by
    unfold commitQuery; simp [hq]
  have h1 : commitCleanup old w = w := by
    unfold commitCleanup; simp [hq]
  unfold commit
  split_ifs <;> simp [h3, h1]

/-- The timeouts after the render when the query effect ran on a blank text and
no cleanup was remembered. -/
theorem commit_timers_blank (rnd : Nat → Fin 10) (old : State) (w : World)
    (hb : isBlank w.state.searchQuery = true) (hcl : w.cleanup = false) :
    (commit rnd old w).timeouts = w.timeouts ∧
    (commit rnd old w).debounceTimer = w.debounceTimer ∧
    (commit rnd old w).nextTimeoutId = w.nextTimeoutId := by
  cases hq : queryDeps old w.state
  · exact commit_timers_idle rnd old w hq
  · have h1 : commitCleanup old w = w := by
      unfold commitCleanup; simp [hcl]
    have hb2 : isBlank (commitPage rnd old w).state.searchQuery = true := by simpa using hb
    have h3 := queryEffect_timers_blank rnd (commitPage rnd old w) hb2
    have e3 : commitQuery rnd old w = queryEffect rnd (commitPage rnd old w) := by
      unfold commitQuery; simp [hq]
    unfold commit
    split_ifs <;> simp [e3, h3, h1]

/-- The timeouts after the render when the query effect ran on a text that is not
blank: the one armed by that run. -/
theorem commit_timers_search (rnd : Nat → Fin 10) (old : State) (w : World)
    (ht : TimerInv w) (hq : queryDeps old w.state = true)
    (hb : isBlank w.state.searchQuery = false) :
    (commit rnd old w).timeouts =
      [⟨w.nextTimeoutId, w.now + 500, w.state.searchQuery, w.state.typeFilter,
        w.state.yearFilter⟩] ∧
    (commit rnd old w).debounceTimer = some w.nextTimeoutId ∧
    (commit rnd old w).nextTimeoutId = w.nextTimeoutId + 1 := by
  have hb2 : isBlank (commitPage rnd old w).state.searchQuery = false := by simpa using hb
  have h3 := queryEffect_timers_search rnd (commitPage rnd old w) hb2
    (commitPage_timerInv rnd old w ht)
  simp only [commitPage_nextTimeoutId, commitPage_now, commitPage_searchQuery,
    commitPage_typeFilter, commitPage_yearFilter] at h3
  have e3 : commitQuery rnd old w = queryEffect rnd (commitPage rnd old w) := by
    unfold commitQuery; simp [hq]
  unfold commit
  split_ifs <;> simp [e3, h3]

/-- The requests the render sends, in order: the page effect, the query effect on
a blank text, and the page effect again after the query effect reset the page. -/
theorem commit_sent (rnd : Nat → Fin 10) (old : State) (w : World) :
    (commit rnd old w).sent = w.sent ++
      (if pageDeps old w.state = true then
        [(Origin.pageEffect,
          ⟨buildParams w.state.typeFilter w.state.yearFilter (pageQuery rnd w)
            w.state.pageNumber, w.state.pageNumber, decide (w.state.pageNumber > 1)⟩)]
       else []) ++
      (if queryDeps old w.state = true ∧ isBlank w.state.searchQuery = true then
        [(Origin.queryEffect,
          ⟨buildParams w.state.typeFilter w.state.yearFilter
            (getRandomKeyword (rnd (commitPage rnd old w).draws)) 1, 1, false⟩)]
       else []) ++
      (if queryDeps old w.state = true ∧ w.state.pageNumber ≠ 1 then
        [(Origin.pageEffect,
          ⟨buildParams w.state.typeFilter w.state.yearFilter
            (pageQuery rnd (commitQuery rnd old w)) 1, 1, false⟩)]
       else []) := by
  have h3 : (commitQuery rnd old w).sent = w.sent ++
      (if pageDeps old w.state = true then
        [(Origin.pageEffect,
          ⟨buildParams w.state.typeFilter w.state.yearFilter (pageQuery rnd w)
            w.state.pageNumber, w.state.pageNumber, decide (w.state.pageNumber > 1)⟩)]
       else []) ++
      (if queryDeps old w.state = true ∧ isBlank w.state.searchQuery = true then
        [(Origin.queryEffect,
          ⟨buildParams w.state.typeFilter w.state.yearFilter
            (getRandomKeyword (rnd (commitPage rnd old w).draws)) 1, 1, false⟩)]
       else []) := by
    unfold commitQuery
    cases hq : queryDeps old w.state
    · simp [commitPage_sent]
    · simp only [if_true, true_and]
      cases hb : isBlank w.state.searchQuery
      · rw [queryEffect_sent_search rnd _ (by simpa using hb), commitPage_sent]
        simp
      · rw [queryEffect_sent_blank rnd _ (by simpa using hb), commitPage_sent]
        simp
  unfold commit
  rw [commitQuery_pageNumber]
  cases hq : queryDeps old w.state
  · simp [h3, hq]
  · by_cases hp : w.state.pageNumber = 1
    · simp [h3, hq, hp]
    · have hp2 : ¬ (1 = w.state.pageNumber) := fun h => hp h.symm
      simp [h3, hq, hp, hp2, commitQuery_pageNumber]

/-- The query the second run of the page effect resolves. -/
theorem pageQuery_commitQuery (rnd : Nat → Fin 10) (old : State) (w : World)
    (hq : queryDeps old w.state = true) :
    (isBlank w.state.searchQuery = false ∧
      pageQuery rnd (commitQuery rnd old w) = w.state.searchQuery) ∨
    (isBlank w.state.searchQuery = true ∧
      pageQuery rnd (commitQuery rnd old w) ∈ randomKeywords) := by
  have h := pageQuery_cases rnd (commitQuery rnd old w)
  simp only [commitQuery_isSearchMode, hq, if_true, commitQuery_searchQuery] at h
  cases hb : isBlank w.state.searchQuery
  · left
    rcases h with h | h
    · exact ⟨rfl, h.2.2⟩
    · exact absurd (by simp [hb]) h.1
  · right
    rcases h with h | h
    · rw [hb] at h; exact absurd h.2.1 (by simp)
    · exact ⟨rfl, h.2⟩

/-! ### The debounce path -/

/-- The effects never send a request through the timeout callback. -/
theorem commit_debounceSent (rnd : Nat → Fin 10) (old : State) (w : World) :
    (commit rnd old w).debounceSent = w.debounceSent := by
  unfold World.debounceSent
  rw [commit_sent]
  simp only [List.filter_append, List.map_append]
  split_ifs <;> simp

theorem queryDeps_of_searchQuery {old s : State} (h : old.searchQuery ≠ s.searchQuery) :
    queryDeps old s = true := by
  unfold queryDeps
  exact decide_eq_true (Or.inl h)

theorem queryDeps_of_typeFilter {old s : State} (h : old.typeFilter ≠ s.typeFilter) :
    queryDeps old s = true := by
  unfold queryDeps
  exact decide_eq_true (Or.inr (Or.inl h))

theorem queryDeps_of_yearFilter {old s : State} (h : old.yearFilter ≠ s.yearFilter) :
    queryDeps old s = true := by
  unfold queryDeps
  exact decide_eq_true (Or.inr (Or.inr h))

/-- A change of the search text to a value that is not blank arms the timeout anew
and sends nothing through the timeout callback. -/
theorem changeQuery_arms (rnd : Nat → Fin 10) (w : World) (v : String) (ht : TimerInv w)
    (hv : isBlank v = false) (hne : w.state.searchQuery ≠ v) :
    Armed (step rnd w (.changeQuery v)) ∧
    (step rnd w (.changeQuery v)).state.searchQuery = v ∧
    (step rnd w (.changeQuery v)).state.typeFilter = w.state.typeFilter ∧
    (step rnd w (.changeQuery v)).state.yearFilter = w.state.yearFilter ∧
    (step rnd w (.changeQuery v)).debounceSent = w.debounceSent := by
  have hs : step rnd w (.changeQuery v) =
      commit rnd w.state { w with state := { w.state with searchQuery := v } } := rfl
  rw [hs]
  have h := commit_timers_search rnd w.state
    { w with state := { w.state with searchQuery := v } } ht (queryDeps_of_searchQuery hne) hv
  refine ⟨⟨w.nextTimeoutId, ?_, h.2.1⟩, by simp, by simp, by simp, ?_⟩
  · rw [h.1]; simp
  · rw [commit_debounceSent]; rfl

/-- Less than 500 ms after the timeout was armed nothing runs. -/
theorem advance_idle (w : World) (gap : Nat) (ha : Armed w) (hg : gap < 500) :
    w.advance gap = { w with now := w.now + gap } := by
  obtain ⟨id, ht, -⟩ := ha
  unfold World.advance
  have h1 : w.timeouts.filter (fun t => decide (t.deadline ≤ w.now + gap)) = [] := by
    rw [ht]; simp; omega
  have h2 : w.timeouts.filter (fun t => decide (¬ t.deadline ≤ w.now + gap)) = w.timeouts := by
    rw [ht]; simp; omega
  simp only [h1, h2, List.foldl_nil]

/-- 500 ms after the timeout was armed its callback runs, once. -/
theorem advance_fire (w : World) (ha : Armed w) (hq : w.state.searchQuery ≠ "") :
    (w.advance 500).timeouts = [] ∧
    (w.advance 500).debounceSent = w.debounceSent ++
      [⟨buildParams w.state.typeFilter w.state.yearFilter w.state.searchQuery 1, 1, false⟩] := by
  obtain ⟨id, ht, -⟩ := ha
  unfold World.advance
  have h1 : w.timeouts.filter (fun t => decide (t.deadline ≤ w.now + 500)) = w.timeouts := by
    rw [ht]; simp
  have h2 : w.timeouts.filter (fun t => decide (¬ t.deadline ≤ w.now + 500)) = [] := by
    rw [ht]; simp
  simp only [h1, h2]
  rw [ht]
  simp only [List.foldl_cons, List.foldl_nil, World.fire]
  rw [send_eq _ _ _ _ _ _ _ hq]
  simp [World.debounceSent, List.filter_append]

/-- A burst of typing from an armed world: the last value is the one sent, once. -/
theorem typing_spec (rnd : Nat → Fin 10) (rest : List (Nat × String)) :
    ∀ w : World, Armed w → isBlank w.state.searchQuery = false →
      (∀ p ∈ rest, p.1 < 500 ∧ isBlank p.2 = false) →
      List.Chain (fun a b => a ≠ b) w.state.searchQuery (rest.map Prod.snd) →
      (step rnd (typing rnd w rest) (.wait 500)).timeouts = [] ∧
      (step rnd (typing rnd w rest) (.wait 500)).debounceSent = w.debounceSent ++
        [⟨buildParams w.state.typeFilter w.state.yearFilter
          ((rest.map Prod.snd).getLastD w.state.searchQuery) 1, 1, false⟩] := by
  induction rest with
  | nil =>
    intro w ha hb _ _
    exact advance_fire w ha (ne_empty_of_not_blank _ hb)
  | cons p rest ih =>
    intro w ha hb hr hch
    obtain ⟨gap, v⟩ := p
    have hp := hr (gap, v) (List.mem_cons_self _ _)
    simp only [List.map_cons, List.chain_cons] at hch
    have e1 : step rnd w (.wait gap) = { w with now := w.now + gap } := advance_idle w gap ha hp.1
    have ht1 : TimerInv (step rnd w (.wait gap)) := by
      rw [e1]
      obtain ⟨id, ht, hd⟩ := ha
      exact Or.inr ⟨_, ht, hd⟩
    have hne : (step rnd w (.wait gap)).state.searchQuery ≠ v := by
      rw [e1]; exact hch.1
    obtain ⟨a1, a2, a3, a4, a5⟩ := changeQuery_arms rnd _ v ht1 hp.2 hne
    have hih := ih (step rnd (step rnd w (.wait gap)) (.changeQuery v)) a1
      (by rw [a2]; exact hp.2)
      (fun q hq => hr q (List.mem_cons_of_mem _ hq))
      (by rw [a2]; exact hch.2)
    rw [a2, a3, a4, a5] at hih
    rw [e1] at hih
    simp only [typing, List.map_cons, List.getLastD_cons]
    rw [e1]
    exact hih

/-! ### Filter changes and scrolling -/

theorem pageDeps_of_typeFilter {old s : State} (h : old.typeFilter ≠ s.typeFilter) :
    pageDeps old s = true := by
  unfold pageDeps
  exact decide_eq_true (Or.inr (Or.inl h))

theorem pageDeps_of_yearFilter {old s : State} (h : old.yearFilter ≠ s.yearFilter) :
    pageDeps old s = true := by
  unfold pageDeps
  exact decide_eq_true (Or.inr (Or.inr h))

theorem pageDeps_of_pageNumber {old s : State} (h : old.pageNumber ≠ s.pageNumber) :
    pageDeps old s = true := by
  unfold pageDeps
  exact decide_eq_true (Or.inl h)

/-- The requests of a render in which both effects run, when the mode flag agrees
with the search text. -/
theorem commit_both_effects (rnd : Nat → Fin 10) (old : State) (w : World)
    (hpd : pageDeps old w.state = true) (hqd : queryDeps old w.state = true)
    (hc : w.state.isSearchMode = !isBlank w.state.searchQuery) :
    ∃ new, (commit rnd old w).sent = w.sent ++ new ∧
      (∃ r rest, new = (Origin.pageEffect, r) :: rest) ∧
      (∃ x, new.getLast? = some x ∧ FirstPageFetch w x.2) ∧
      (w.state.pageNumber = 1 → ∀ x ∈ new, FirstPageFetch w x.2) := by
  have hs := commit_sent rnd old w
  simp only [hpd, hqd, if_true, true_and, List.append_assoc] at hs
  have ha : w.state.pageNumber = 1 → FirstPageFetch w
      ⟨buildParams w.state.typeFilter w.state.yearFilter (pageQuery rnd w)
        w.state.pageNumber, w.state.pageNumber, decide (w.state.pageNumber > 1)⟩ := by
    intro hp
    have hq := pageQuery_cases rnd w
    rw [hc] at hq
    refine ⟨hp, by simp [hp], hp, ?_, ?_⟩
    · intro hb
      rw [hb] at hq
      simpa using hq
    · intro hb
      rw [hb] at hq
      simpa using hq
  have hb2 : isBlank w.state.searchQuery = true → FirstPageFetch w
      ⟨buildParams w.state.typeFilter w.state.yearFilter
        (getRandomKeyword (rnd (commitPage rnd old w).draws)) 1, 1, false⟩ := by
    intro hb
    exact ⟨rfl, rfl, rfl, fun h => absurd (hb.symm.trans h) (by simp),
      fun _ => getRandomKeyword_mem _⟩
  have hc3 : FirstPageFetch w
      ⟨buildParams w.state.typeFilter w.state.yearFilter
        (pageQuery rnd (commitQuery rnd old w)) 1, 1, false⟩ := by
    refine ⟨rfl, rfl, rfl, ?_, ?_⟩
    · intro hb
      rcases pageQuery_commitQuery rnd old w hqd with h | h
      · exact h.2
      · exact absurd (hb.symm.trans h.1) (by simp)
    · intro hb
      rcases pageQuery_commitQuery rnd old w hqd with h | h
      · exact absurd (h.1.symm.trans hb) (by simp)
      · exact h.2
  by_cases hp : w.state.pageNumber = 1
  · have hp2 : ¬ w.state.pageNumber ≠ 1 := fun h => h hp
    cases hb : isBlank w.state.searchQuery
    · simp only [hb, Bool.false_eq_true, if_false, if_neg hp2, List.append_nil] at hs
      refine ⟨_, hs, ⟨_, _, rfl⟩, ⟨_, rfl, ha hp⟩, ?_⟩
      intro _ x hx
      rw [List.mem_singleton] at hx
      rw [hx]; exact ha hp
    · simp only [hb, if_true, if_neg hp2, List.append_nil, List.singleton_append] at hs
      refine ⟨_, hs, ⟨_, _, rfl⟩, ⟨_, rfl, hb2 hb⟩, ?_⟩
      intro _ x hx
      simp only [List.mem_cons, List.mem_singleton, List.not_mem_nil, or_false] at hx
      rcases hx with hx | hx
      · rw [hx]; exact ha hp
      · rw [hx]; exact hb2 hb
  · have hp2 : w.state.pageNumber ≠ 1 := hp
    cases hb : isBlank w.state.searchQuery
    · simp only [hb, Bool.false_eq_true, if_false, if_pos hp2, List.nil_append,
        List.singleton_append] at hs
      exact ⟨_, hs, ⟨_, _, rfl⟩, ⟨_, rfl, hc3⟩, fun h => absurd h hp⟩
    · simp only [hb, if_true, if_pos hp2, List.singleton_append] at hs
      exact ⟨_, hs, ⟨_, _, rfl⟩, ⟨_, rfl, hc3⟩, fun h => absurd h hp⟩

/-- The requests of a render in which both effects run, the first apart: the page
effect sends the current page with the resolved search term, and whatever follows
is a request for page 1 in replace mode. -/
theorem commit_both_effects_split (rnd : Nat → Fin 10) (old : State) (w : World)
    (hpd : pageDeps old w.state = true) (hqd : queryDeps old w.state = true)
    (hc : w.state.isSearchMode = !isBlank w.state.searchQuery) :
    ∃ r rest, (commit rnd old w).sent = w.sent ++ (Origin.pageEffect, r) :: rest ∧
      r.page = w.state.pageNumber ∧ r.params.page = w.state.pageNumber ∧
      (r.append = true ↔ 1 < w.state.pageNumber) ∧
      (isBlank w.state.searchQuery = false → r.params.s = w.state.searchQuery) ∧
      (isBlank w.state.searchQuery = true → r.params.s ∈ randomKeywords) ∧
      (∀ x ∈ rest, FirstPageFetch w x.2) ∧
      (w.state.pageNumber ≠ 1 → rest ≠ []) := by
  have hs := commit_sent rnd old w
  simp only [hpd, hqd, if_true, true_and, List.append_assoc] at hs
  have hq := pageQuery_cases rnd w
  rw [hc] at hq
  refine ⟨_, _, hs, rfl, rfl, by simp, ?_, ?_, ?_, ?_⟩
  · intro hb
    rw [hb] at hq
    simpa [buildParams] using hq
  · intro hb
    rw [hb] at hq
    simpa [buildParams] using hq
  · intro x hx
    change x ∈ _ ++ _ at hx
    rw [List.mem_append] at hx
    rcases hx with hx | hx
    · split_ifs at hx with hb
      · rw [List.mem_singleton] at hx
        rw [hx]
        exact ⟨rfl, rfl, rfl, fun h => absurd (hb.symm.trans h) (by simp),
          fun _ => getRandomKeyword_mem _⟩
      · exact absurd hx (List.not_mem_nil _)
    · split_ifs at hx with hp
      · rw [List.mem_singleton] at hx
        rw [hx]
        refine ⟨rfl, rfl, rfl, ?_, ?_⟩
        · intro hb
          rcases pageQuery_commitQuery rnd old w hqd with h | h
          · exact h.2
          · exact absurd (hb.symm.trans h.1) (by simp)
        · intro hb
          rcases pageQuery_commitQuery rnd old w hqd with h | h
          · exact absurd (h.1.symm.trans hb) (by simp)
          · exact h.2
      · exact absurd hx (List.not_mem_nil _)
  · intro hp
    change _ ++ _ ≠ []
    rw [if_pos hp]
    simp

/-- A filter change runs both effects. -/
theorem step_changesFilter (rnd : Nat → Fin 10) (w : World) (e : Event)
    (he : e.changesFilter w) :
    ∃ w1 : World, step rnd w e = commit rnd w.state w1 ∧
      pageDeps w.state w1.state = true ∧ queryDeps w.state w1.state = true ∧
      w1.state.searchQuery = w.state.searchQuery ∧
      w1.state.isSearchMode = w.state.isSearchMode ∧
      w1.state.pageNumber = w.state.pageNumber ∧
      w1.sent = w.sent ∧ w1.timeouts = w.timeouts ∧ w1.debounceTimer = w.debounceTimer ∧
      w1.nextTimeoutId = w.nextTimeoutId ∧ w1.cleanup = w.cleanup ∧ w1.now = w.now := by
  cases e with
  | changeType v =>
    have hne : w.state.typeFilter ≠ v := fun h => he h.symm
    exact ⟨{ w with state := { w.state with typeFilter := v } }, rfl,
      pageDeps_of_typeFilter hne, queryDeps_of_typeFilter hne,
      rfl, rfl, rfl, rfl, rfl, rfl, rfl, rfl, rfl⟩
  | changeYear v =>
    have hne : w.state.yearFilter ≠ v := fun h => he h.symm
    exact ⟨{ w with state := { w.state with yearFilter := v } }, rfl,
      pageDeps_of_yearFilter hne, queryDeps_of_yearFilter hne,
      rfl, rfl, rfl, rfl, rfl, rfl, rfl, rfl, rfl⟩
  | changeQuery v => exact absurd he id
  | scroll a b c => exact absurd he id
  | clear => exact absurd he id
  | wait ms => exact absurd he id
  | settle i o => exact absurd he id

/-- The render calls `setTimeout` exactly when the query effect runs on a text
that is not blank. -/
theorem commit_nextTimeoutId (rnd : Nat → Fin 10) (old : State) (w : World) :
    (commit rnd old w).nextTimeoutId =
      if queryDeps old w.state = true ∧ isBlank w.state.searchQuery = false
      then w.nextTimeoutId + 1 else w.nextTimeoutId := by
  have h4 : (commit rnd old w).nextTimeoutId = (commitQuery rnd old w).nextTimeoutId := by
    unfold commit; split_ifs <;> simp
  rw [h4]
  cases hq : queryDeps old w.state
  · have e3 : commitQuery rnd old w = commitPage rnd old w := by
      unfold commitQuery; simp [hq]
    rw [e3]; simp
  · have e3 : commitQuery rnd old w = queryEffect rnd (commitPage rnd old w) := by
      unfold commitQuery; simp [hq]
    rw [e3]
    cases hb : isBlank w.state.searchQuery
    · have hb2 : isBlank (commitPage rnd old w).state.searchQuery = false := by simpa using hb
      rw [queryEffect_search rnd _ hb2]; simp
    · have hb2 : isBlank (commitPage rnd old w).state.searchQuery = true := by simpa using hb
      rw [(queryEffect_timers_blank rnd (commitPage rnd old w) hb2).2.2]; simp

theorem handleScroll_cases (s : State) (h t H : Int) :
    handleScroll s h t H = s ∨
      handleScroll s h t H = { s with pageNumber := s.pageNumber + 1 } := by
  unfold handleScroll
  split_ifs
  · right; rfl
  · left; rfl

theorem queryDeps_self (s : State) : queryDeps s s = false := by
  unfold queryDeps; simp

theorem pageDeps_self (s : State) : pageDeps s s = false := by
  unfold pageDeps; simp

/-- A scroll event leaves the timeouts alone; when it raises the page, the page
effect sends the request for the next page at once, in append mode. -/
theorem step_scroll (rnd : Nat → Fin 10) (w : World) (hp : 1 ≤ w.state.pageNumber)
    (h t H : Int) :
    (step rnd w (.scroll h t H)).timeouts = w.timeouts ∧
    (step rnd w (.scroll h t H)).debounceTimer = w.debounceTimer ∧
    (step rnd w (.scroll h t H)).nextTimeoutId = w.nextTimeoutId ∧
    (((step rnd w (.scroll h t H)).state.pageNumber = w.state.pageNumber ∧
        (step rnd w (.scroll h t H)).sent = w.sent) ∨
      ((step rnd w (.scroll h t H)).state.pageNumber = w.state.pageNumber + 1 ∧
        ∃ r, (step rnd w (.scroll h t H)).sent = w.sent ++ [(Origin.pageEffect, r)] ∧
          r.page = w.state.pageNumber + 1 ∧ r.append = true)) := by
  have hs : step rnd w (.scroll h t H) =
      commit rnd w.state { w with state := handleScroll w.state h t H } := rfl
  rw [hs]
  rcases handleScroll_cases w.state h t H with e | e
  · rw [e]
    have hq : queryDeps w.state ({ w with state := w.state } : World).state = false :=
      queryDeps_self _
    have hpd : pageDeps w.state ({ w with state := w.state } : World).state = false :=
      pageDeps_self _
    have ht := commit_timers_idle rnd w.state { w with state := w.state } hq
    refine ⟨ht.1, ht.2.1, ht.2.2, Or.inl ⟨?_, ?_⟩⟩
    · rw [commit_pageNumber, hq]; rfl
    · rw [commit_sent, hq, hpd]; simp
  · rw [e]
    have hq : queryDeps w.state ({ w with state :=
        { w.state with pageNumber := w.state.pageNumber + 1 } } : World).state = false := by
      unfold queryDeps; simp
    have hpd : pageDeps w.state ({ w with state :=
        { w.state with pageNumber := w.state.pageNumber + 1 } } : World).state = true :=
      pageDeps_of_pageNumber (by simp)
    have ht := commit_timers_idle rnd w.state _ hq
    refine ⟨ht.1, ht.2.1, ht.2.2, Or.inr ⟨?_, ?_⟩⟩
    · rw [commit_pageNumber, hq]; rfl
    · rw [commit_sent, hq, hpd]
      refine ⟨_, by simp; rfl, rfl, ?_⟩
      simp only [gt_iff_lt, decide_eq_true_eq]
      omega

/-! ### The remaining events -/

theorem advance_frame (w : World) (ms : Nat) :
    (w.advance ms).nextTimeoutId = w.nextTimeoutId ∧
    (w.advance ms).state.pageNumber = w.state.pageNumber ∧
    (w.advance ms).state.totalPages = w.state.totalPages := by
  unfold World.advance
  have hf := foldl_fire_frame (w.timeouts.filter (fun t => t.deadline ≤ w.now + ms))
    { w with timeouts := w.timeouts.filter (fun t => ¬ t.deadline ≤ w.now + ms),
             now := w.now + ms }
  exact ⟨hf.2.2.1, hf.2.2.2.2.2.2.2.2.2.1, hf.2.2.2.2.2.2.2.2.2.2⟩

theorem step_settle_some (rnd : Nat → Fin 10) (w : World) (i : Nat) (o : Outcome)
    (r : Request) (h : w.inFlight.get? i = some r) :
    step rnd w (.settle i o) =
      { w with state := fetchSettle w.state r o, inFlight := w.inFlight.eraseIdx i,
               positiveSeen := w.positiveSeen || o.positive } := by
  simp only [step, h]

theorem step_settle_none (rnd : Nat → Fin 10) (w : World) (i : Nat) (o : Outcome)
    (h : w.inFlight.get? i = none) : step rnd w (.settle i o) = w := by
  simp only [step, h]

/-- The render calls `setTimeout` only when the query effect runs on a text that
is not blank. -/
theorem commit_armed (rnd : Nat → Fin 10) (old : State) (w : World)
    (h : (commit rnd old w).nextTimeoutId ≠ w.nextTimeoutId) :
    queryDeps old w.state = true ∧ isBlank w.state.searchQuery = false := by
  rw [commit_nextTimeoutId] at h
  by_contra hc
  rw [if_neg hc] at h
  exact h rfl

/-- An event that calls `setTimeout` is a change of the search text or of a
filter, and leaves a search text that is not blank. -/
theorem step_armed (rnd : Nat → Fin 10) (w : World) (hp : 1 ≤ w.state.pageNumber) (e : Event)
    (hne : (step rnd w e).nextTimeoutId ≠ w.nextTimeoutId) :
    isBlank (step rnd w e).state.searchQuery = false ∧
    ((∃ v, e = .changeQuery v ∧ v ≠ w.state.searchQuery) ∨ e.changesFilter w) := by
  cases e with
  | changeQuery v =>
    have h := commit_armed rnd w.state { w with state := { w.state with searchQuery := v } } hne
    refine ⟨?_, Or.inl ⟨v, rfl, ?_⟩⟩
    · show isBlank (commit rnd w.state _).state.searchQuery = false
      rw [commit_searchQuery]; exact h.2
    · intro hv
      have h1 := h.1
      unfold queryDeps at h1
      simp [hv] at h1
  | changeType v =>
    have h := commit_armed rnd w.state { w with state := { w.state with typeFilter := v } } hne
    refine ⟨?_, Or.inr ?_⟩
    · show isBlank (commit rnd w.state _).state.searchQuery = false
      rw [commit_searchQuery]; exact h.2
    · intro hv
      have h1 := h.1
      unfold queryDeps at h1
      simp [hv] at h1
  | changeYear v =>
    have h := commit_armed rnd w.state { w with state := { w.state with yearFilter := v } } hne
    refine ⟨?_, Or.inr ?_⟩
    · show isBlank (commit rnd w.state _).state.searchQuery = false
      rw [commit_searchQuery]; exact h.2
    · intro hv
      have h1 := h.1
      unfold queryDeps at h1
      simp [hv] at h1
  | scroll a b c => exact absurd (step_scroll rnd w hp a b c).2.2.1 hne
  | clear =>
    have hn : (clearSearch rnd w).nextTimeoutId = w.nextTimeoutId := by
      unfold clearSearch; rw [send_nextTimeoutId]
    have h := commit_armed rnd w.state (clearSearch rnd w)
      (by rw [hn]; exact hne)
    have hq : (clearSearch rnd w).state.searchQuery = "" := by
      unfold clearSearch; rw [send_searchQuery]
    rw [hq, isBlank_empty] at h
    exact absurd h.2 (by simp)
  | wait ms => exact absurd (advance_frame w ms).1 hne
  | settle i o =>
    cases hr : w.inFlight.get? i with
    | none => rw [step_settle_none rnd w i o hr] at hne; exact absurd rfl hne
    | some r => rw [step_settle_some rnd w i o r hr] at hne; exact absurd rfl hne

/-- The render keeps the page bound. -/
theorem commit_pageBound (rnd : Nat → Fin 10) (old : State) (w : World)
    (h : PageBound w.state) : PageBound (commit rnd old w).state := by
  unfold PageBound at h ⊢
  rw [commit_pageNumber, commit_totalPages]
  split_ifs
  · exact ⟨h.2, h.2⟩
  · exact h

/-- Every event but the settling of a request keeps the page bound. -/
theorem step_pageBound (rnd : Nat → Fin 10) (w : World) (e : Event) (he : ¬ e.isSettle)
    (h : PageBound w.state) : PageBound (step rnd w e).state := by
  cases e with
  | changeQuery v => exact commit_pageBound rnd _ _ h
  | changeType v => exact commit_pageBound rnd _ _ h
  | changeYear v => exact commit_pageBound rnd _ _ h
  | scroll a b c =>
    refine commit_pageBound rnd _ _ ?_
    show PageBound (handleScroll w.state a b c)
    unfold handleScroll
    split_ifs with hc
    · exact ⟨hc.2.2, h.2⟩
    · exact h
  | clear =>
    refine commit_pageBound rnd _ _ ?_
    unfold PageBound clearSearch
    rw [send_pageNumber, send_totalPages]
    exact ⟨h.2, h.2⟩
  | wait ms =>
    unfold PageBound
    show (w.advance ms).state.pageNumber ≤ (w.advance ms).state.totalPages ∧
      1 ≤ (w.advance ms).state.totalPages
    rw [(advance_frame w ms).2.1, (advance_frame w ms).2.2]
    exact h
  | settle i o => exact absurd trivial he

theorem reachable_run (rnd : Nat → Fin 10) (es : List Event) :
    ∀ w, Reachable rnd w → Reachable rnd (run rnd w es) := by
  induction es with
  | nil => intro w h; exact h
  | cons e es ih => intro w h; exact ih _ (Reachable.step w e h)

theorem reachable_secondPageWorld : Reachable firstWord secondPageWorld :=
  reachable_run firstWord _ _ Reachable.mount

theorem reachable_searchWorld : Reachable firstWord searchWorld :=
  reachable_run firstWord _ _ Reachable.mount

/-! ## The claims on the debounce timer, the filters and the page bound -/

/-- C5: from a world the component can be in, the search text changes to `v` and
then through the values of `rest`, every value non-blank and different from the
one before it, each change less than 500 ms after the previous one; 500 ms after
the last change the timeout callback has sent exactly one request, for the last
value typed, page 1, replace mode, and no timeout is pending.  In every world the
component can be in, hence at every instant of the burst, at most one timeout is
pending. -/
theorem C5_debounce_sends_last_value_once (rnd : Nat → Fin 10) (w : World)
    (hw : Reachable rnd w) (v : String) (rest : List (Nat × String))
    (hv : isBlank v = false)
    (hrest : ∀ p ∈ rest, p.1 < 500 ∧ isBlank p.2 = false)
    (hchg : List.Chain (fun a b => a ≠ b) w.state.searchQuery (v :: rest.map Prod.snd)) :
    (step rnd (typing rnd (step rnd w (.changeQuery v)) rest) (.wait 500)).debounceSent =
      w.debounceSent ++
        [⟨buildParams w.state.typeFilter w.state.yearFilter
          ((rest.map Prod.snd).getLastD v) 1, 1, false⟩] ∧
    (step rnd (typing rnd (step rnd w (.changeQuery v)) rest) (.wait 500)).timeouts = [] ∧
    (∀ w1, Reachable rnd w1 → w1.timeouts.length ≤ 1) := by
  rw [List.chain_cons] at hchg
  obtain ⟨a1, a2, a3, a4, a5⟩ := changeQuery_arms rnd w v (reachable_inv rnd w hw).1 hv hchg.1
  have h := typing_spec rnd rest (step rnd w (.changeQuery v)) a1 (by rw [a2]; exact hv) hrest
    (by rw [a2]; exact hchg.2)
  rw [a2, a3, a4, a5] at h
  refine ⟨h.2, h.1, ?_⟩
  intro w1 h1
  rcases (reachable_inv rnd w1 h1).1 with h0 | ⟨t, ht, -⟩
  · rw [h0]; exact Nat.zero_le _
  · rw [ht]; exact le_refl _

/-- The theorem of C5 at a concrete input: after the mount the user types `b`,
`ba`, `bat` with 100 and 200 ms between the keystrokes. -/
theorem C5_debounce_witness :
    (step firstWord (typing firstWord (step firstWord (mount firstWord) (.changeQuery "b"))
        [(100, "ba"), (200, "bat")]) (.wait 500)).debounceSent =
      [⟨buildParams "" "" "bat" 1, 1, false⟩] :=
  (C5_debounce_sends_last_value_once firstWord (mount firstWord) Reachable.mount "b"
    [(100, "ba"), (200, "bat")] (by decide) (by decide)
    (List.Chain.cons (by decide)
      (List.Chain.cons (by decide) (List.Chain.cons (by decide) List.Chain.nil)))).1

/-- C6 (amended): in every world the component can be in, whatever the current
page, a change of the type filter or of the year filter resets the page to 1,
leaves the search text unchanged and sends at least one request at once.  Every
request it sends at once has the search text as search term when that text is not
blank and a word of the vocabulary when it is.  The first of them, sent by the
page effect, is for the page current before the reset, in append mode exactly
when that page is greater than 1; every later one is for page 1 in replace mode,
and there is a later one when the page was greater than 1.  Hence the last
request sent at once is for page 1 in replace mode, and so is every one when the
page was 1 already. -/
theorem C6_filter_change_resets_page (rnd : Nat → Fin 10) (w : World)
    (hw : Reachable rnd w) (e : Event) (he : e.changesFilter w) :
    (step rnd w e).state.pageNumber = 1 ∧
    (step rnd w e).state.searchQuery = w.state.searchQuery ∧
    (∃ r rest, (step rnd w e).sent = w.sent ++ (Origin.pageEffect, r) :: rest ∧
      r.page = w.state.pageNumber ∧ r.params.page = w.state.pageNumber ∧
      (r.append = true ↔ 1 < w.state.pageNumber) ∧
      (isBlank w.state.searchQuery = false → r.params.s = w.state.searchQuery) ∧
      (isBlank w.state.searchQuery = true → r.params.s ∈ randomKeywords) ∧
      (∀ x ∈ rest, FirstPageFetch w x.2) ∧
      (w.state.pageNumber ≠ 1 → rest ≠ [])) ∧
    ∃ new, (step rnd w e).sent = w.sent ++ new ∧
      (∃ x, new.getLast? = some x ∧ FirstPageFetch w x.2) ∧
      (w.state.pageNumber = 1 → ∀ x ∈ new, FirstPageFetch w x.2) := by
  obtain ⟨w1, e1, hpd, hqd, f1, f2, f3, f4, -⟩ := step_changesFilter rnd w e he
  have hc : w1.state.isSearchMode = !isBlank w1.state.searchQuery := by
    rw [f1, f2]; exact (reachable_inv rnd w hw).2.1.1
  obtain ⟨new, h1, -, ⟨x, hx, hfx⟩, hall⟩ := commit_both_effects rnd w.state w1 hpd hqd hc
  obtain ⟨r, rest, g1, g2, g3, g4, g5, g6, g7, g8⟩ :=
    commit_both_effects_split rnd w.state w1 hpd hqd hc
  have hF : ∀ r, FirstPageFetch w1 r → FirstPageFetch w r := by
    intro r hr
    unfold FirstPageFetch at hr ⊢
    rw [f1] at hr
    exact hr
  rw [e1]
  rw [f1] at g5 g6
  rw [f3] at g2 g3 g4 g8
  refine ⟨by rw [commit_pageNumber, hqd]; rfl, by rw [commit_searchQuery, f1],
    ⟨r, rest, by rw [g1, f4], g2, g3, g4, g5, g6, fun y hy => hF _ (g7 y hy), g8⟩,
    new, by rw [h1, f4], ⟨x, hx, hF _ hfx⟩, ?_⟩
  intro hp y hy
  exact hF _ (hall (by rw [f3]; exact hp) y hy)

/-- The theorem of C6 at a concrete input: with the second page current, the type
filter is set to `movie`; the page goes back from 2 to 1. -/
theorem C6_filter_change_witness :
    secondPageWorld.state.pageNumber = 2 ∧
    (step firstWord secondPageWorld (.changeType "movie")).state.pageNumber = 1 :=
  ⟨by decide!,
   (C6_filter_change_resets_page firstWord secondPageWorld reachable_secondPageWorld
    (.changeType "movie")
    (show "movie" ≠ secondPageWorld.state.typeFilter by decide!)).1⟩

/-- C6 as stated fails: with the second page current, a change of the type filter
first sends a request for page 2 in append mode, through the page effect, and
only then the requests for page 1. -/
theorem C6_counterexample_stale_page :
    secondPageWorld.state.pageNumber = 2 ∧
    (step firstWord secondPageWorld (.changeType "movie")).sent.drop secondPageWorld.sent.length =
      [(.pageEffect, ⟨buildParams "movie" "" "love" 2, 2, true⟩),
       (.queryEffect, ⟨buildParams "movie" "" "love" 1, 1, false⟩),
       (.pageEffect, ⟨buildParams "movie" "" "love" 1, 1, false⟩)] ∧
    ¬ (∀ x ∈ (step firstWord secondPageWorld (.changeType "movie")).sent.drop
          secondPageWorld.sent.length, x.2.page = 1 ∧ x.2.append = false) := by
  decide!

/-- C7 (amended): in every world the component can be in, `setTimeout` is called
only by a change of the search text, or of the type or year filter, that leaves a
search text that is not blank.  A scroll event never touches the timeouts, and
the request of the page it turns to is sent at once.  A filter change sends a
request at once through the page effect; with a blank search text it leaves the
timeouts alone, with a search text that is not blank it replaces the pending
timeout by a new one due in 500 ms. -/
theorem C7_timer_armed_by_query_effect (rnd : Nat → Fin 10) (w : World)
    (hw : Reachable rnd w) :
    (∀ e, (step rnd w e).nextTimeoutId ≠ w.nextTimeoutId →
      isBlank (step rnd w e).state.searchQuery = false ∧
      ((∃ v, e = .changeQuery v ∧ v ≠ w.state.searchQuery) ∨ e.changesFilter w)) ∧
    (∀ h t H : Int,
      (step rnd w (.scroll h t H)).timeouts = w.timeouts ∧
      (step rnd w (.scroll h t H)).debounceTimer = w.debounceTimer ∧
      (step rnd w (.scroll h t H)).nextTimeoutId = w.nextTimeoutId ∧
      (((step rnd w (.scroll h t H)).state.pageNumber = w.state.pageNumber ∧
          (step rnd w (.scroll h t H)).sent = w.sent) ∨
        ((step rnd w (.scroll h t H)).state.pageNumber = w.state.pageNumber + 1 ∧
          ∃ r, (step rnd w (.scroll h t H)).sent = w.sent ++ [(Origin.pageEffect, r)] ∧
            r.page = w.state.pageNumber + 1 ∧ r.append = true))) ∧
    (∀ e, e.changesFilter w →
      (∃ r rest, (step rnd w e).sent = w.sent ++ (Origin.pageEffect, r) :: rest) ∧
      (isBlank w.state.searchQuery = true →
        (step rnd w e).timeouts = w.timeouts ∧
        (step rnd w e).debounceTimer = w.debounceTimer ∧
        (step rnd w e).nextTimeoutId = w.nextTimeoutId) ∧
      (isBlank w.state.searchQuery = false →
        (step rnd w e).timeouts =
          [⟨w.nextTimeoutId, w.now + 500, w.state.searchQuery,
            (step rnd w e).state.typeFilter, (step rnd w e).state.yearFilter⟩] ∧
        (step rnd w e).debounceTimer = some w.nextTimeoutId ∧
        (step rnd w e).nextTimeoutId = w.nextTimeoutId + 1)) := by
  obtain ⟨hti, hco, hpg⟩ := reachable_inv rnd w hw
  refine ⟨?_, fun h t H => step_scroll rnd w hpg h t H, ?_⟩
  · intro e hne
    exact step_armed rnd w hpg e hne
  · intro e he
    obtain ⟨w1, e1, hpd, hqd, f1, f2, f3, f4, f5, f6, f7, f8, f9⟩ :=
      step_changesFilter rnd w e he
    have hc : w1.state.isSearchMode = !isBlank w1.state.searchQuery := by
      rw [f1, f2]; exact hco.1
    have ht1 : TimerInv w1 := (timerInv_congr f5 f6).2 hti
    obtain ⟨new, h1, ⟨r, rest, hr⟩, -, -⟩ := commit_both_effects rnd w.state w1 hpd hqd hc
    rw [e1]
    refine ⟨⟨r, rest, by rw [h1, f4, hr]⟩, ?_, ?_⟩
    · intro hb
      have h := commit_timers_blank rnd w.state w1 (by rw [f1]; exact hb)
        (by rw [f8, hco.2, hb]; rfl)
      rw [f5, f6, f7] at h
      exact h
    · intro hb
      have h := commit_timers_search rnd w.state w1 ht1 hqd (by rw [f1]; exact hb)
      rw [f7, f9, f1] at h
      simp only [commit_typeFilter, commit_yearFilter]
      exact h

/-- The theorem of C7 at a concrete input: with `batman` typed and the timeout
run, setting the type filter to `movie` arms the timeout anew, 500 ms ahead. -/
theorem C7_timer_witness :
    isBlank searchWorld.state.searchQuery = false ∧
    searchWorld.timeouts = [] ∧
    (step firstWord searchWorld (.changeType "movie")).timeouts =
      [⟨searchWorld.nextTimeoutId, searchWorld.now + 500, searchWorld.state.searchQuery,
        (step firstWord searchWorld (.changeType "movie")).state.typeFilter,
        (step firstWord searchWorld (.changeType "movie")).state.yearFilter⟩] :=
  ⟨by decide, by decide,
   (((C7_timer_armed_by_query_effect firstWord searchWorld reachable_searchWorld).2.2
    (.changeType "movie")
    (show "movie" ≠ searchWorld.state.typeFilter by decide)).2.2 (by decide)).1⟩

/-- C7 as stated fails: with `batman` typed and no timeout pending, a change of the
type filter arms the timeout, for the search text and the new filter, 500 ms
ahead. -/
theorem C7_counterexample_filter_arms :
    searchWorld.timeouts = [] ∧
    searchWorld.state.isSearchMode = true ∧
    searchWorld.now = 500 ∧
    (step firstWord searchWorld (.changeType "movie")).timeouts =
      [⟨2, 1000, "batman", "movie", ""⟩] ∧
    (step firstWord searchWorld (.changeType "movie")).nextTimeoutId ≠
      searchWorld.nextTimeoutId := by
  decide

/-- C9 (amended): in every world the component can be in the page is at least 1.
The bound `page ≤ totalPages` with `totalPages ≥ 1` is kept by every change of
the search text or of a filter, scroll event, clear action, passing of time and
transport failure, and by a negative response to an append continuation.  A
response is applied without a look at the current page: after a response with
`Response === 'True'` and `n` results the page is unchanged and `totalPages` is
the ceiling of `n / 10`, so the bound holds exactly when the page is at most
that ceiling; after a negative response to a call that is not an append
continuation it holds exactly when the page is 1. -/
theorem C9_page_bound (rnd : Nat → Fin 10) (w : World) (hw : Reachable rnd w) :
    1 ≤ w.state.pageNumber ∧
    (∀ e, ¬ e.isSettle → PageBound w.state → PageBound (step rnd w e).state) ∧
    (∀ i, PageBound w.state → PageBound (step rnd w (.settle i .rejected)).state) ∧
    (∀ i r d, w.inFlight.get? i = some r → d.Response = "True" →
      (step rnd w (.settle i (.resolved d))).state.pageNumber = w.state.pageNumber ∧
      (step rnd w (.settle i (.resolved d))).state.totalPages =
        Nat.ceil ((d.totalResults : ℚ) / 10) ∧
      (PageBound (step rnd w (.settle i (.resolved d))).state ↔
        w.state.pageNumber ≤ Nat.ceil ((d.totalResults : ℚ) / 10))) ∧
    (∀ i r d, w.inFlight.get? i = some r → d.Response ≠ "True" →
      (r.append = true ∧ 1 < r.page → PageBound w.state →
        PageBound (step rnd w (.settle i (.resolved d))).state) ∧
      (r.append = false ∨ r.page = 1 →
        (PageBound (step rnd w (.settle i (.resolved d))).state ↔
          w.state.pageNumber = 1))) := by
  have hpg := (reachable_inv rnd w hw).2.2
  refine ⟨hpg, fun e he h => step_pageBound rnd w e he h, ?_, ?_, ?_⟩
  · intro i h
    cases hr : w.inFlight.get? i with
    | none => rw [step_settle_none rnd w i _ hr]; exact h
    | some r => rw [step_settle_some rnd w i _ r hr]; exact h
  · intro i r d hr hd
    rw [step_settle_some rnd w i _ r hr]
    have h1 : (fetchSettle w.state r (.resolved d)).totalPages =
        Nat.ceil ((d.totalResults : ℚ) / 10) := by
      simp [fetchSettle, hd, mathCeilDiv10]
    refine ⟨fetchSettle_pageNumber _ _ _, h1, ?_⟩
    unfold PageBound
    simp only [fetchSettle_pageNumber, h1]
    constructor
    · exact fun h => h.1
    · exact fun h => ⟨h, le_trans hpg h⟩
  · intro i r d hr hd
    rw [step_settle_some rnd w i _ r hr]
    constructor
    · rintro ⟨ha, hp⟩ h
      have hn : ¬ (r.append = false ∨ r.page = 1) := by
        rintro (h0 | h0)
        · rw [ha] at h0; exact Bool.noConfusion h0
        · omega
      unfold PageBound
      simp only [fetchSettle, if_neg hd, if_neg hn]
      exact h
    · intro hc
      unfold PageBound
      simp only [fetchSettle, if_neg hd, if_pos hc]
      constructor
      · intro h; omega
      · intro h; omega

/-- The theorem of C9 at a concrete input: with the second page of three current,
a filter change keeps the bound, and the late response with 8 results, applied to
the request still in flight, keeps it exactly when the page, 2, is at most the
ceiling of 8 / 10. -/
theorem C9_page_bound_witness :
    PageBound secondPageWorld.state ∧
    PageBound (step firstWord secondPageWorld (.changeType "movie")).state ∧
    secondPageWorld.inFlight.get? 0 = some ⟨buildParams "" "" "love" 1, 1, false⟩ ∧
    (PageBound (step firstWord secondPageWorld
        (.settle 0 (.resolved ⟨"True", [], 8, none⟩))).state ↔
      secondPageWorld.state.pageNumber ≤ Nat.ceil (((8 : Nat) : ℚ) / 10)) :=
  ⟨⟨by decide!, by decide!⟩,
   (C9_page_bound firstWord secondPageWorld reachable_secondPageWorld).2.1
     (.changeType "movie") (fun h => h) ⟨by decide!, by decide!⟩,
   by decide!,
   ((C9_page_bound firstWord secondPageWorld reachable_secondPageWorld).2.2.2.1 0
     ⟨buildParams "" "" "love" 1, 1, false⟩ ⟨"True", [], 8, none⟩ (by decide!) rfl).2.2⟩

/-- C9 as stated fails: the first response announces 25 results, the user scrolls
to the second page, and the other request of the mount, answered later with 8
results, lowers `totalPages` to 1 while the page stays 2. -/
theorem C9_counterexample_late_response :
    Reachable firstWord lateResponseWorld ∧
    lateResponseWorld.positiveSeen = true ∧
    lateResponseWorld.state.pageNumber = 2 ∧
    lateResponseWorld.state.totalPages = 1 ∧
    ¬ (lateResponseWorld.state.pageNumber ≤ lateResponseWorld.state.totalPages) := by
  refine ⟨?_, by decide!, by decide!, by decide!, by decide!⟩
  exact Reachable.step _ _ (reachable_run firstWord _ _ Reachable.mount)

end MovieApp
